import Mathlib

/-!
Verification of the PortfolioPro holdings-snapshot reduction pipeline
(`src/user.py`, `src/localInsights.py`).

The embedding models Python JSON-like values as the inductive type `JSON`
(numbers are exact fractions `PyNum`; Python `None` and JSON `null` are
both `JSON.null`), and fallible Python code as `Except PyErr _`
computations.  Dictionary keys are modelled as strings (the aggregator's
payloads are JSON, whose object keys are strings).  Python's `str * int`
sequence repetition and the int/float distinction are not modelled:
numbers form a single exact numeric type, and arithmetic on non-numbers
raises `typeError`, exactly as Python does on the values that actually
flow through this pipeline.
-/

namespace PortfolioPro

/-- A Python number, as an exact (not necessarily reduced) fraction
`n / d`.  Every number built by the embedding or its inputs has `d ≠ 0`,
and every operation below preserves that. -/
structure PyNum where
  n : ℤ
  d : ℕ
  deriving DecidableEq

/-- The integer `z` as a `PyNum`. -/
def PyNum.int (z : ℤ) : PyNum := ⟨z, 1⟩

/-- Multiplication of exact fractions. -/
def PyNum.mul (a b : PyNum) : PyNum := ⟨a.n * b.n, a.d * b.d⟩

/-- Addition of exact fractions. -/
def PyNum.add (a b : PyNum) : PyNum := ⟨a.n * (b.d : ℤ) + b.n * (a.d : ℤ), a.d * b.d⟩

/-- Division of exact fractions (the divisor is known nonzero at every
call site; the resulting denominator is kept positive). -/
def PyNum.div (a b : PyNum) : PyNum :=
  let m := a.n * (b.d : ℤ)
  let q := (a.d : ℤ) * b.n
  if q < 0 then ⟨-m, (-q).toNat⟩ else ⟨m, q.toNat⟩

/-- Is the fraction zero? -/
def PyNum.isZero (a : PyNum) : Bool := a.n = 0

/-- Is the fraction `≥ 0`? -/
def PyNum.ge0 (a : PyNum) : Bool := decide (0 ≤ a.n)

/-- Is the fraction `> 0`? -/
def PyNum.gt0 (a : PyNum) : Bool := decide (0 < a.n)

/-- A JSON-like Python value: `None`, booleans, numbers (as exact
fractions), strings, lists and string-keyed dictionaries. -/
inductive JSON where
  | null : JSON
  | bool : Bool → JSON
  | num : PyNum → JSON
  | str : String → JSON
  | arr : List JSON → JSON
  | obj : List (String × JSON) → JSON

/-- The integer `z` as a JSON number. -/
def jint (z : ℤ) : JSON := .num (PyNum.int z)

/-- The fraction `n / d` as a JSON number. -/
def jfrac (n : ℤ) (d : ℕ) : JSON := .num ⟨n, d⟩

/-- Python exception classes observed by the pipeline. -/
inductive PyErr where
  | attributeError : PyErr
  | typeError : PyErr
  | keyError : PyErr
  | indexError : PyErr
  | valueError : PyErr
  | zeroDivisionError : PyErr
  deriving DecidableEq

/-- First-match association lookup, the semantics of a Python dict read
(keys in our dicts are unique, so first match is the match). -/
def assocLookup : List (String × JSON) → String → Option JSON
  | [], _ => none
  | (k', v) :: rest, k => if k' = k then some v else assocLookup rest k

/-- Python dict assignment `d[k] = v`: replace the value of an existing
key in place, otherwise append the new key. -/
def dictInsert : List (String × JSON) → String → JSON → List (String × JSON)
  | [], k, v => [(k, v)]
  | (k', v') :: rest, k, v =>
      if k' = k then (k, v) :: rest else (k', v') :: dictInsert rest k v

/-- How many entries of the association list carry key `k` (a real Python
dict always has 0 or 1). -/
def countKey (l : List (String × JSON)) (k : String) : Nat :=
  (l.filter (fun kv => kv.1 = k)).length

/-- Python `d.get(k, default)`: only dicts have `.get`; any other receiver
raises `AttributeError`. -/
def pyGetD : JSON → String → JSON → Except PyErr JSON
  | .obj l, k, d => .ok ((assocLookup l k).getD d)
  | _, _, _ => .error .attributeError

/-- Python `d.get(k)` (default `None`). -/
def pyGet (j : JSON) (k : String) : Except PyErr JSON :=
  pyGetD j k .null

/-- Python subscript `d[k]` with a string key: `KeyError` on a missing
key, `TypeError` on a non-dict receiver. -/
def pyIndexStr : JSON → String → Except PyErr JSON
  | .obj l, k =>
      match assocLookup l k with
      | some v => .ok v
      | none => .error .keyError
  | _, _ => .error .typeError

/-- Python subscript `x[0]`: head of a list (IndexError when empty),
first character of a string, `TypeError` otherwise. -/
def pySub0 : JSON → Except PyErr JSON
  | .arr [] => .error .indexError
  | .arr (x :: _) => .ok x
  | .str s =>
      match s.data with
      | [] => .error .indexError
      | c :: _ => .ok (.str (String.mk [c]))
  | _ => .error .typeError

/-- Python truthiness (`bool(x)`). -/
def pyTruthy : JSON → Bool
  | .null => false
  | .bool b => b
  | .num q => !q.isZero
  | .str s => !s.isEmpty
  | .arr xs => !xs.isEmpty
  | .obj l => !l.isEmpty

/-- Python iteration `for x in v`: list elements, dict keys, or the
characters of a string; other values raise `TypeError`. -/
def pyIter : JSON → Except PyErr (List JSON)
  | .arr xs => .ok xs
  | .obj l => .ok (l.map (fun kv => .str kv.1))
  | .str s => .ok (s.data.map (fun c => .str (String.mk [c])))
  | _ => .error .typeError

/-- The numeric value of a Python number-or-bool operand (`True` is 1). -/
def asNum : JSON → Option PyNum
  | .num a => some a
  | .bool b => some (PyNum.int (if b then 1 else 0))
  | _ => none

/-- Python `a * b` restricted to numbers (booleans count as 0/1); any
operand outside that raises `TypeError`, as `None * x` does in the code. -/
def pyMul (a b : JSON) : Except PyErr JSON :=
  match asNum a, asNum b with
  | some x, some y => .ok (.num (x.mul y))
  | _, _ => .error .typeError

/-- Python `a + b` restricted to numbers, as used by `sum(...)` and the
`+=` accumulators (whose left operand starts at the int `0`). -/
def pyAdd (a b : JSON) : Except PyErr JSON :=
  match asNum a, asNum b with
  | some x, some y => .ok (.num (x.add y))
  | _, _ => .error .typeError

/-- Python `x >= 0` for the P&L sign tests; `TypeError` on non-numbers
(e.g. `None >= 0`). -/
def numGe0 (a : JSON) : Except PyErr Bool :=
  match asNum a with
  | some x => .ok x.ge0
  | none => .error .typeError

/-- Python `x > 0`. -/
def numGt0 (a : JSON) : Except PyErr Bool :=
  match asNum a with
  | some x => .ok x.gt0
  | none => .error .typeError

/-- Python `a / b` on numbers (`ZeroDivisionError` on a zero divisor). -/
def pyDiv (a b : JSON) : Except PyErr JSON :=
  match asNum a, asNum b with
  | some x, some y =>
      if y.isZero then .error .zeroDivisionError else .ok (.num (x.div y))
  | _, _ => .error .typeError

/-- Round the nonnegative fraction `n / d` to the nearest natural number,
ties to even (the rounding of Python's fixed-point float formatting). -/
def roundHalfEvenFrac (n d : ℕ) : ℕ :=
  let f := n / d
  let r := n % d
  if 2 * r < d then f
  else if d < 2 * r then f + 1
  else if f % 2 = 0 then f else f + 1

/-- Insert thousands separators into a reversed digit list. -/
def commasRev : List Char → List Char
  | [] => []
  | [a] => [a]
  | [a, b] => [a, b]
  | [a, b, c] => [a, b, c]
  | a :: b :: c :: rest => a :: b :: c :: ',' :: commasRev rest

/-- Render a natural number with `,` thousands separators. -/
def natGrouped (n : Nat) : String :=
  String.mk ((commasRev (Nat.repr n).data.reverse).reverse)

/-- Left-pad a digit string with zeros to the given width. -/
def padZeros (width : Nat) (s : String) : String :=
  String.mk (List.replicate (width - s.data.length) '0' ++ s.data)

/-- Python's fixed-point format specifier: `fmtFixed true 2 q` is
`f"{q:,.2f}"`, `fmtFixed false 2 q` is `f"{q:.2f}"`. -/
def fmtFixed (comma : Bool) (prec : Nat) (q : PyNum) : String :=
  let scaled := roundHalfEvenFrac (q.n.natAbs * Nat.pow 10 prec) q.d
  let ip := scaled / Nat.pow 10 prec
  let fp := scaled % Nat.pow 10 prec
  (if q.n < 0 then "-" else "")
    ++ (if comma then natGrouped ip else Nat.repr ip)
    ++ "." ++ padZeros prec (Nat.repr fp)

/-- Python `f"{x:,.2f}"`-style formatting of a pipeline value: numbers
(and booleans, which are ints) format; `None`, strings and containers
raise, as they do in Python. -/
def pyFormatNum (comma : Bool) (prec : Nat) (j : JSON) : Except PyErr String :=
  match j with
  | .num q => .ok (fmtFixed comma prec q)
  | .bool b => .ok (fmtFixed comma prec (PyNum.int (if b then 1 else 0)))
  | .str _ => .error .valueError
  | _ => .error .typeError

/-- Decimal rendering of a number for `str()`: integer values print
bare, non-integers print as a trimmed fixed-point expansion. -/
def ratPyRepr (q : PyNum) : String :=
  if q.n % (q.d : ℤ) = 0 then toString (q.n / (q.d : ℤ))
  else
    let s := fmtFixed false 17 q
    String.mk (((s.data.reverse.dropWhile (fun c => c = '0'))).reverse)

/-- Python `str()` of atoms (the shapes interpolated by the formatters). -/
def pyStrAtom : JSON → String
  | .null => "None"
  | .bool true => "True"
  | .bool false => "False"
  | .str s => s
  | .num q => ratPyRepr q
  | .arr _ => ""
  | .obj _ => ""

/-- Fuel-bounded `repr()` for containers (never reached by the pipeline's
formatter inputs, which interpolate only atoms). -/
def pyReprFuel : Nat → JSON → String
  | 0, _ => ""
  | fuel + 1, j =>
      match j with
      | .str s => "'" ++ s ++ "'"
      | .arr xs => "[" ++ String.intercalate ", " (xs.map (pyReprFuel fuel)) ++ "]"
      | .obj kvs =>
          "\x7b" ++ String.intercalate ", "
            (kvs.map (fun kv => "'" ++ kv.1 ++ "': " ++ pyReprFuel fuel kv.2)) ++ "\x7d"
      | a => pyStrAtom a

/-- Python `str()` as used by f-string interpolation. -/
def pyStr : JSON → String
  | .arr xs => pyReprFuel 1000 (.arr xs)
  | .obj l => pyReprFuel 1000 (.obj l)
  | a => pyStrAtom a

/-- `c * n` string repetition (`"=" * 50`). -/
def repChar (c : Char) (n : Nat) : String :=
  String.mk (List.replicate n c)

/-- `p` is a prefix of `s` (for locating report lines). -/
def strStarts (s p : String) : Bool :=
  p.data.isPrefixOf s.data

/-- Character-level substring search helper. -/
def containsAux (needle : List Char) : List Char → Bool
  | [] => needle.isEmpty
  | c :: rest => needle.isPrefixOf (c :: rest) || containsAux needle rest

/-- `sub` occurs as a substring of `s`. -/
def strContains (s sub : String) : Bool :=
  containsAux sub.data s.data

/-! ## Embedding of `src/user.py` -/


/-- A Python `for` loop that builds a list, propagating the first raised
exception (`snapshot["positions"].append(...)`-style loops). -/
def mapMExc (g : JSON → Except PyErr β) : List JSON → Except PyErr (List β)
  | [] => .ok []
  | x :: rest => do
    let y ← g x
    let ys ← mapMExc g rest
    pure (y :: ys)

/-- A Python accumulating loop (`sum(...)`, `+=`), propagating the first
raised exception. -/
def foldMExc (g : α → JSON → Except PyErr α) (acc : α) :
    List JSON → Except PyErr α
  | [] => .ok acc
  | x :: rest => do
    let acc2 ← g acc x
    foldMExc g acc2 rest


/-- The mutable state of a `User` (`user.py` lines 6-18): credentials plus
the two registries, `brokerage_accounts` (name → aggregator id) and
`holdings` (name → Full Snapshot). -/
structure UserState where
  userId : String
  userSecret : String
  brokerage_accounts : List (String × JSON)
  holdings : List (String × JSON)

/-- `x.get(k1, {}).get(k2)` (`user.py`'s two-level null-safe lookup). -/
def chain2 (j : JSON) (k1 k2 : String) : Except PyErr JSON := do
  let a ← pyGetD j k1 (.obj [])
  pyGet a k2

/-- `x.get(k1, {}).get(k2, {}).get(k3)`. -/
def chain3 (j : JSON) (k1 k2 k3 : String) : Except PyErr JSON := do
  let a ← pyGetD j k1 (.obj [])
  let b ← pyGetD a k2 (.obj [])
  pyGet b k3

/-- `x.get(k1, {}).get(k2, {}).get(k3, {}).get(k4)`. -/
def chain4 (j : JSON) (k1 k2 k3 k4 : String) : Except PyErr JSON := do
  let a ← pyGetD j k1 (.obj [])
  let b ← pyGetD a k2 (.obj [])
  let c ← pyGetD b k3 (.obj [])
  pyGet c k4

/-- Body of the positions loop of `_create_holdings_snapshot`
(`user.py` lines 97-110). -/
def processPosition (position : JSON) : Except PyErr JSON := do
  let symbol ← chain3 position "symbol" "symbol" "symbol"
  let description ← chain2 position "symbol" "description"
  let units ← pyGet position "units"
  let fractional_units ← pyGet position "fractional_units"
  let current_price ← pyGet position "price"
  let average_purchase_price ← pyGet position "average_purchase_price"
  let open_pnl ← pyGet position "open_pnl"
  let exchange ← chain4 position "symbol" "symbol" "exchange" "code"
  let asset_type ← chain4 position "symbol" "symbol" "type" "description"
  let currency ← chain4 position "symbol" "symbol" "currency" "code"
  pure (.obj [("symbol", symbol), ("description", description), ("units", units),
    ("fractional_units", fractional_units), ("current_price", current_price),
    ("average_purchase_price", average_purchase_price), ("open_pnl", open_pnl),
    ("exchange", exchange), ("asset_type", asset_type), ("currency", currency)])

/-- Body of the option-positions loop of `_create_holdings_snapshot`
(`user.py` lines 114-126). -/
def processOption (opt : JSON) : Except PyErr JSON := do
  let underlying_symbol ← chain4 opt "symbol" "option_symbol" "underlying_symbol" "symbol"
  let option_ticker ← chain3 opt "symbol" "option_symbol" "ticker"
  let option_type ← chain3 opt "symbol" "option_symbol" "option_type"
  let strike_price ← chain3 opt "symbol" "option_symbol" "strike_price"
  let expiration_date ← chain3 opt "symbol" "option_symbol" "expiration_date"
  let units ← pyGet opt "units"
  let current_price ← pyGet opt "price"
  let average_purchase_price ← pyGet opt "average_purchase_price"
  let currency ← chain2 opt "currency" "code"
  pure (.obj [("underlying_symbol", underlying_symbol), ("option_ticker", option_ticker),
    ("option_type", option_type), ("strike_price", strike_price),
    ("expiration_date", expiration_date), ("units", units),
    ("current_price", current_price),
    ("average_purchase_price", average_purchase_price), ("currency", currency)])

/-- Body of the orders loop of `_create_holdings_snapshot`
(`user.py` lines 130-157), including the conditional `option_symbol`
sub-dict added only when `order.get("option_symbol")` is truthy. -/
def processOrder (order : JSON) : Except PyErr JSON := do
  let brokerage_order_id ← pyGet order "brokerage_order_id"
  let symbol ← chain2 order "universal_symbol" "symbol"
  let action ← pyGet order "action"
  let total_quantity ← pyGet order "total_quantity"
  let filled_quantity ← pyGet order "filled_quantity"
  let execution_price ← pyGet order "execution_price"
  let order_type ← pyGet order "order_type"
  let limit_price ← pyGet order "limit_price"
  let stop_price ← pyGet order "stop_price"
  let status ← pyGet order "status"
  let time_placed ← pyGet order "time_placed"
  let time_executed ← pyGet order "time_executed"
  let time_updated ← pyGet order "time_updated"
  let expiry_date ← pyGet order "expiry_date"
  let base := [("brokerage_order_id", brokerage_order_id), ("symbol", symbol),
    ("action", action), ("total_quantity", total_quantity),
    ("filled_quantity", filled_quantity), ("execution_price", execution_price),
    ("order_type", order_type), ("limit_price", limit_price),
    ("stop_price", stop_price), ("status", status), ("time_placed", time_placed),
    ("time_executed", time_executed), ("time_updated", time_updated),
    ("expiry_date", expiry_date)]
  let osCond ← pyGet order "option_symbol"
  if pyTruthy osCond then do
    let ticker ← chain2 order "option_symbol" "ticker"
    let ot ← chain2 order "option_symbol" "option_type"
    let sp ← chain2 order "option_symbol" "strike_price"
    let ed ← chain2 order "option_symbol" "expiration_date"
    pure (.obj (base ++ [("option_symbol", .obj [("ticker", ticker),
      ("option_type", ot), ("strike_price", sp), ("expiration_date", ed)])]))
  else
    pure (.obj base)

/-- `User._create_holdings_snapshot` (`user.py` lines 64-159): the Raw
Response Adapter.  `now` stands for `datetime.now().isoformat()`. -/
def create_holdings_snapshot (now : String) (holdings_data : JSON) :
    Except PyErr JSON := do
  let account_id ← chain2 holdings_data "account" "id"
  let account_name ← chain2 holdings_data "account" "name"
  let institution_name ← chain2 holdings_data "account" "institution_name"
  let total_balance ← chain4 holdings_data "account" "balance" "total" "amount"
  let total_balance_currency ← chain4 holdings_data "account" "balance" "total" "currency"
  let balCond ← pyGet holdings_data "balances"
  let cash_available ←
    if pyTruthy balCond then do
      let bl ← pyGetD holdings_data "balances" (.arr [.obj []])
      let b0 ← pySub0 bl
      pyGet b0 "cash"
    else pure .null
  let balCond2 ← pyGet holdings_data "balances"
  let buying_power ←
    if pyTruthy balCond2 then do
      let bl ← pyGetD holdings_data "balances" (.arr [.obj []])
      let b0 ← pySub0 bl
      pyGet b0 "buying_power"
    else pure .null
  let total_portfolio_value ← chain2 holdings_data "total_value" "value"
  let total_portfolio_currency ← chain2 holdings_data "total_value" "currency"
  let posList ← pyGetD holdings_data "positions" (.arr [])
  let posItems ← pyIter posList
  let positions ← mapMExc processPosition posItems
  let optList ← pyGetD holdings_data "option_positions" (.arr [])
  let optItems ← pyIter optList
  let option_positions ← mapMExc processOption optItems
  let ordList ← pyGetD holdings_data "orders" (.arr [])
  let ordItems ← pyIter ordList
  let orders ← mapMExc processOrder ordItems
  pure (.obj [
    ("metadata", .obj [("account_id", account_id), ("account_name", account_name),
      ("pulled_at", .str now), ("institution_name", institution_name)]),
    ("balances", .obj [("total_balance", total_balance),
      ("total_balance_currency", total_balance_currency),
      ("cash_available", cash_available), ("buying_power", buying_power),
      ("total_portfolio_value", total_portfolio_value),
      ("total_portfolio_currency", total_portfolio_currency)]),
    ("positions", .arr positions),
    ("option_positions", .arr option_positions),
    ("orders", .arr orders)])

/-- Body of the positions loop of `small_holdings_snapshot`
(`user.py` lines 190-197): keep only the four essential fields. -/
def smallPositionEntry (position : JSON) : Except PyErr JSON := do
  let s ← pyGet position "symbol"
  let un ← pyGet position "units"
  let cp ← pyGet position "current_price"
  let op ← pyGet position "open_pnl"
  pure (JSON.obj [("symbol", s), ("units", un), ("current_price", cp),
    ("open_pnl", op)])

/-- `User.small_holdings_snapshot` (`user.py` lines 161-199): the
Snapshot Reducer.  Returns `{}` when no snapshot is stored for the name. -/
def small_holdings_snapshot (u : UserState) (account_name : String) :
    Except PyErr JSON :=
  match assocLookup u.holdings account_name with
  | none => .ok (.obj [])
  | some holdings_data => do
    let snapshot_date ← chain2 holdings_data "metadata" "pulled_at"
    let account ← chain2 holdings_data "metadata" "account_name"
    let total_balance ← chain2 holdings_data "balances" "total_balance"
    let cash_available ← chain2 holdings_data "balances" "cash_available"
    let buying_power ← chain2 holdings_data "balances" "buying_power"
    let total_portfolio_value ← chain2 holdings_data "balances" "total_portfolio_value"
    let posList ← pyGetD holdings_data "positions" (.arr [])
    let posItems ← pyIter posList
    let positions ← mapMExc smallPositionEntry posItems
    pure (.obj [("snapshot_date", snapshot_date), ("account", account),
      ("balances", .obj [("total_balance", total_balance),
        ("cash_available", cash_available), ("buying_power", buying_power),
        ("total_portfolio_value", total_portfolio_value)]),
      ("positions", .arr positions)])

/-- One summand of `sum(pos['units'] * pos['current_price'] for pos in positions)`
(`user.py` line 241). -/
def sumUnitsPriceStep (acc : JSON) (pos : JSON) : Except PyErr JSON := do
  let u ← pyIndexStr pos "units"
  let c ← pyIndexStr pos "current_price"
  let v ← pyMul u c
  pyAdd acc v

/-- One summand of `sum(pos['open_pnl'] for pos in positions)`
(`user.py` line 242). -/
def sumPnlStep (acc : JSON) (pos : JSON) : Except PyErr JSON := do
  let p ← pyIndexStr pos "open_pnl"
  pyAdd acc p

/-- Body of the per-position report block (`user.py` lines 244-260). -/
def reportPositionBlock (position : JSON) : Except PyErr (List String) := do
  let symbol ← pyIndexStr position "symbol"
  let units ← pyIndexStr position "units"
  let current_price ← pyIndexStr position "current_price"
  let open_pnl ← pyIndexStr position "open_pnl"
  let position_value ← pyMul units current_price
  let ge ← numGe0 open_pnl
  let unitsS ← pyFormatNum true 4 units
  let cpS ← pyFormatNum false 2 current_price
  let pvS ← pyFormatNum true 2 position_value
  let opS ← pyFormatNum false 2 open_pnl
  pure [pyStr symbol ++ ":",
    "  Units: " ++ unitsS,
    "  Current Price: $" ++ cpS,
    "  Position Value: $" ++ pvS,
    "  P&L: " ++ (if ge then "🟢" else "🔴") ++ " " ++ (if ge then "+" else "")
      ++ "$" ++ opS,
    ""]

/-- The `summary` line list built by `format_portfolio_summary`
(`user.py` lines 216-278), for a non-empty snapshot. -/
def summaryLines (snapshot : JSON) : Except PyErr (List String) := do
  let accountV ← pyIndexStr snapshot "account"
  let dateV ← pyIndexStr snapshot "snapshot_date"
  let balances ← pyIndexStr snapshot "balances"
  let tbV ← pyIndexStr balances "total_balance"
  let tbS ← pyFormatNum true 2 tbV
  let caV ← pyIndexStr balances "cash_available"
  let caS ← pyFormatNum true 2 caV
  let bpV ← pyIndexStr balances "buying_power"
  let bpS ← pyFormatNum true 2 bpV
  let tpvCond ← pyGet balances "total_portfolio_value"
  let pvLines ←
    if pyTruthy tpvCond then do
      let pvV ← pyIndexStr balances "total_portfolio_value"
      let pvS ← pyFormatNum true 2 pvV
      pure ["Portfolio Value: $" ++ pvS]
    else pure []
  let positionsV ← pyIndexStr snapshot "positions"
  let posPart ←
    if pyTruthy positionsV then do
      let posItems ← pyIter positionsV
      let totalPosV ← foldMExc sumUnitsPriceStep (jint 0) posItems
      let totalPnl ← foldMExc sumPnlStep (jint 0) posItems
      let blocks ← mapMExc reportPositionBlock posItems
      let tpvS ← pyFormatNum true 2 totalPosV
      let geT ← numGe0 totalPnl
      let tplS ← pyFormatNum false 2 totalPnl
      let tpvCond2 ← pyGet balances "total_portfolio_value"
      let emitPct ← if pyTruthy tpvCond2 then numGt0 totalPosV else pure false
      let pctLines ←
        if emitPct then do
          let ratio ← pyDiv totalPnl totalPosV
          let pct ← pyMul ratio (jint 100)
          let geP ← numGe0 pct
          let pctS ← pyFormatNum false 2 pct
          pure ["P&L %: " ++ (if geP then "+" else "") ++ pctS ++ "%"]
        else pure []
      pure (["📈 POSITIONS", repChar '-' 20] ++ blocks.flatten
        ++ ["📋 PORTFOLIO SUMMARY", repChar '-' 20,
            "Total Positions Value: $" ++ tpvS,
            "Total P&L: " ++ (if geT then "+" else "") ++ "$" ++ tplS]
        ++ pctLines)
    else
      pure ["📈 POSITIONS", repChar '-' 20, "No positions found"]
  pure ([repChar '=' 50, "PORTFOLIO SUMMARY - " ++ pyStr accountV, repChar '=' 50,
    "Snapshot Date: " ++ pyStr dateV, "",
    "📊 ACCOUNT BALANCES", repChar '-' 20,
    "Total Balance: $" ++ tbS, "Cash Available: $" ++ caS,
    "Buying Power: $" ++ bpS] ++ pvLines ++ [""]
    ++ posPart ++ ["", repChar '=' 50])

/-- `User.format_portfolio_summary` (`user.py` lines 201-280): the Report
variant of the Text Formatter. -/
def format_portfolio_summary (u : UserState) (account_name : String) :
    Except PyErr String := do
  let snapshot ← small_holdings_snapshot u account_name
  if !(pyTruthy snapshot) then
    pure ("No holdings data available for account: " ++ account_name)
  else do
    let ls ← summaryLines snapshot
    pure (String.intercalate "\n" ls)

/-- `User.pull_connected_brokerage_accounts` loop body
(`user.py` lines 31-32): `self.brokerage_accounts[account["name"]] = account["id"]`
(Python evaluates the right-hand side, then the target subscript).
Account names are modelled as strings via `pyStr` (the aggregator returns
JSON objects, whose `name` values are strings). -/
def registerLoop (dict : List (String × JSON)) :
    List JSON → (List (String × JSON)) × Bool
  | [] => (dict, true)
  | account :: rest =>
      match pyIndexStr account "id" with
      | .error _ => (dict, false)
      | .ok idV =>
          match pyIndexStr account "name" with
          | .error _ => (dict, false)
          | .ok nameV => registerLoop (dictInsert dict (pyStr nameV) idV) rest

/-- `User.pull_connected_brokerage_accounts` (`user.py` lines 20-36).
`resp` stands for the aggregator's `list_user_accounts(...).body` (or the
exception the call raised). -/
def pull_connected_brokerage_accounts (resp : Except PyErr JSON)
    (u : UserState) : UserState × Bool :=
  match resp with
  | .error _ => (u, false)
  | .ok body =>
      match pyIter body with
      | .error _ => (u, false)
      | .ok items =>
          match registerLoop u.brokerage_accounts items with
          | (dict, okFlag) => ({ u with brokerage_accounts := dict }, okFlag)

/-- `User.pull_account_holdings` (`user.py` lines 38-62).  `resp` stands
for `get_user_holdings(...).body` (or the exception the call raised); the
account-id lookup `self.brokerage_accounts[account_name]` is evaluated
first, and every exception is caught and turned into `False` with the
state untouched. -/
def pull_account_holdings (now : String) (resp : Except PyErr JSON)
    (u : UserState) (account_name : String) : UserState × Bool :=
  match assocLookup u.brokerage_accounts account_name with
  | none => (u, false)
  | some _ =>
      match resp with
      | .error _ => (u, false)
      | .ok body =>
          match create_holdings_snapshot now body with
          | .error _ => (u, false)
          | .ok snapshot =>
              ({ u with holdings := dictInsert u.holdings account_name snapshot },
                true)

/-! ## Embedding of `src/localInsights.py` -/

/-- Body of the positions loop of `_format_snapshot_for_llm`
(`localInsights.py` lines 78-93), threading the two running totals. -/
def llmPosStep (acc : JSON × JSON × List String) (position : JSON) :
    Except PyErr (JSON × JSON × List String) := do
  let symbol ← pyGetD position "symbol" (.str "Unknown")
  let units ← pyGetD position "units" (jint 0)
  let current_price ← pyGetD position "current_price" (jint 0)
  let open_pnl ← pyGetD position "open_pnl" (jint 0)
  let position_value ← pyMul units current_price
  let tv ← pyAdd acc.1 position_value
  let tp ← pyAdd acc.2.1 open_pnl
  let unitsS ← pyFormatNum true 4 units
  let cpS ← pyFormatNum false 2 current_price
  let pvS ← pyFormatNum true 2 position_value
  let ge ← numGe0 open_pnl
  let opS ← pyFormatNum false 2 open_pnl
  pure (tv, tp, acc.2.2 ++ ["  " ++ pyStr symbol ++ ":",
    "    Units: " ++ unitsS,
    "    Current Price: $" ++ cpS,
    "    Position Value: $" ++ pvS,
    "    P&L: " ++ (if ge then "+" else "") ++ "$" ++ opS,
    ""])

/-- The `formatted` line list built by `_format_snapshot_for_llm`
(`localInsights.py` lines 55-104), for a non-empty snapshot. -/
def llmLines (snapshot : JSON) : Except PyErr (List String) := do
  let accountV ← pyGetD snapshot "account" (.str "Unknown")
  let dateV ← pyGetD snapshot "snapshot_date" (.str "Unknown")
  let balances ← pyGetD snapshot "balances" (.obj [])
  let tbV ← pyGetD balances "total_balance" (jint 0)
  let tbS ← pyFormatNum true 2 tbV
  let caV ← pyGetD balances "cash_available" (jint 0)
  let caS ← pyFormatNum true 2 caV
  let bpV ← pyGetD balances "buying_power" (jint 0)
  let bpS ← pyFormatNum true 2 bpV
  let tpvCond ← pyGet balances "total_portfolio_value"
  let pvLines ←
    if pyTruthy tpvCond then do
      let pvV ← pyGet balances "total_portfolio_value"
      let pvS ← pyFormatNum true 2 pvV
      pure ["  Portfolio Value: $" ++ pvS]
    else pure []
  let positionsV ← pyGetD snapshot "positions" (.arr [])
  let posPart ←
    if pyTruthy positionsV then do
      let posItems ← pyIter positionsV
      let res ← foldMExc llmPosStep (jint 0, jint 0, []) posItems
      let tpvS ← pyFormatNum true 2 res.1
      let geT ← numGe0 res.2.1
      let tplS ← pyFormatNum false 2 res.2.1
      let emitPct ← numGt0 res.1
      let pctLines ←
        if emitPct then do
          let ratio ← pyDiv res.2.1 res.1
          let pct ← pyMul ratio (jint 100)
          let geP ← numGe0 pct
          let pctS ← pyFormatNum false 2 pct
          pure ["  P&L %: " ++ (if geP then "+" else "") ++ pctS ++ "%"]
        else pure []
      pure (["POSITIONS:"] ++ res.2.2
        ++ ["PORTFOLIO SUMMARY:",
            "  Total Positions Value: $" ++ tpvS,
            "  Total P&L: " ++ (if geT then "+" else "") ++ "$" ++ tplS]
        ++ pctLines)
    else
      pure ["POSITIONS: No positions found"]
  pure (["PORTFOLIO SNAPSHOT", "Account: " ++ pyStr accountV,
    "Date: " ++ pyStr dateV, "",
    "ACCOUNT BALANCES:",
    "  Total Balance: $" ++ tbS, "  Cash Available: $" ++ caS,
    "  Buying Power: $" ++ bpS] ++ pvLines ++ [""]
    ++ posPart)

/-- `_format_snapshot_for_llm` (`localInsights.py` lines 42-106): the
Prompt variant of the Text Formatter. -/
def format_snapshot_for_llm (snapshot : JSON) : Except PyErr String :=
  if !(pyTruthy snapshot) then
    pure "No portfolio data available for analysis."
  else do
    let ls ← llmLines snapshot
    pure (String.intercalate "\n" ls)

/-! ## Partial payloads: the raw holdings schema with arbitrarily missing keys

The adapter reads the aggregator payload only along the key paths below
(`user.py` lines 73-157).  A `Payload` is such a payload with every key —
at any depth — independently optional; `Payload.toJSON` renders it as the
Python dict in which exactly the present keys occur.  Leaves are
arbitrary JSON values. -/

/-- Emit a key only when the field is present (an absent `Option` is a
missing key of the source payload). -/
def optField (k : String) : Option JSON → List (String × JSON)
  | none => []
  | some v => [(k, v)]

/-- `account.balance.total` sub-object. -/
structure BalanceTotal where
  amount : Option JSON
  currency : Option JSON

def BalanceTotal.fields (b : BalanceTotal) : List (String × JSON) :=
  optField "amount" b.amount ++ optField "currency" b.currency

def BalanceTotal.toJSON (b : BalanceTotal) : JSON := .obj b.fields

/-- `account.balance` sub-object. -/
structure AccountBalance where
  total : Option BalanceTotal

def AccountBalance.fields (b : AccountBalance) : List (String × JSON) :=
  optField "total" (b.total.map BalanceTotal.toJSON)

def AccountBalance.toJSON (b : AccountBalance) : JSON := .obj b.fields

/-- `account` sub-object. -/
structure AccountInfo where
  id : Option JSON
  name : Option JSON
  institution_name : Option JSON
  balance : Option AccountBalance

def AccountInfo.fields (a : AccountInfo) : List (String × JSON) :=
  optField "id" a.id ++ optField "name" a.name
    ++ optField "institution_name" a.institution_name
    ++ optField "balance" (a.balance.map AccountBalance.toJSON)

def AccountInfo.toJSON (a : AccountInfo) : JSON := .obj a.fields

/-- An element of the top-level `balances` list. -/
structure BalanceEntry where
  cash : Option JSON
  buying_power : Option JSON

def BalanceEntry.fields (b : BalanceEntry) : List (String × JSON) :=
  optField "cash" b.cash ++ optField "buying_power" b.buying_power

def BalanceEntry.toJSON (b : BalanceEntry) : JSON := .obj b.fields

/-- `total_value` sub-object. -/
structure TotalValue where
  value : Option JSON
  currency : Option JSON

def TotalValue.fields (t : TotalValue) : List (String × JSON) :=
  optField "value" t.value ++ optField "currency" t.currency

def TotalValue.toJSON (t : TotalValue) : JSON := .obj t.fields

/-- `positions[i].symbol.symbol.exchange` sub-object. -/
structure ExchangeInfo where
  code : Option JSON

def ExchangeInfo.fields (e : ExchangeInfo) : List (String × JSON) :=
  optField "code" e.code

def ExchangeInfo.toJSON (e : ExchangeInfo) : JSON := .obj e.fields

/-- `positions[i].symbol.symbol.type` sub-object. -/
structure TypeInfo where
  description : Option JSON

def TypeInfo.fields (t : TypeInfo) : List (String × JSON) :=
  optField "description" t.description

def TypeInfo.toJSON (t : TypeInfo) : JSON := .obj t.fields

/-- A currency sub-object carrying a `code`. -/
structure CurrencyInfo where
  code : Option JSON

def CurrencyInfo.fields (c : CurrencyInfo) : List (String × JSON) :=
  optField "code" c.code

def CurrencyInfo.toJSON (c : CurrencyInfo) : JSON := .obj c.fields

/-- `positions[i].symbol.symbol` sub-object. -/
structure SymbolInner where
  symbol : Option JSON
  exchange : Option ExchangeInfo
  type : Option TypeInfo
  currency : Option CurrencyInfo

def SymbolInner.fields (s : SymbolInner) : List (String × JSON) :=
  optField "symbol" s.symbol
    ++ optField "exchange" (s.exchange.map ExchangeInfo.toJSON)
    ++ optField "type" (s.type.map TypeInfo.toJSON)
    ++ optField "currency" (s.currency.map CurrencyInfo.toJSON)

def SymbolInner.toJSON (s : SymbolInner) : JSON := .obj s.fields

/-- `positions[i].symbol` sub-object. -/
structure PosSymbol where
  symbol : Option SymbolInner
  description : Option JSON

def PosSymbol.fields (s : PosSymbol) : List (String × JSON) :=
  optField "symbol" (s.symbol.map SymbolInner.toJSON)
    ++ optField "description" s.description

def PosSymbol.toJSON (s : PosSymbol) : JSON := .obj s.fields

/-- An element of the top-level `positions` list. -/
structure Position where
  symbol : Option PosSymbol
  units : Option JSON
  fractional_units : Option JSON
  price : Option JSON
  average_purchase_price : Option JSON
  open_pnl : Option JSON

def Position.fields (pos : Position) : List (String × JSON) :=
  optField "symbol" (pos.symbol.map PosSymbol.toJSON)
    ++ optField "units" pos.units
    ++ optField "fractional_units" pos.fractional_units
    ++ optField "price" pos.price
    ++ optField "average_purchase_price" pos.average_purchase_price
    ++ optField "open_pnl" pos.open_pnl

def Position.toJSON (pos : Position) : JSON := .obj pos.fields

/-- `option_positions[i].symbol.option_symbol.underlying_symbol`. -/
structure UnderlyingSymbol where
  symbol : Option JSON

def UnderlyingSymbol.fields (u : UnderlyingSymbol) : List (String × JSON) :=
  optField "symbol" u.symbol

def UnderlyingSymbol.toJSON (u : UnderlyingSymbol) : JSON := .obj u.fields

/-- `option_positions[i].symbol.option_symbol` sub-object. -/
structure OptionSymbolInfo where
  underlying_symbol : Option UnderlyingSymbol
  ticker : Option JSON
  option_type : Option JSON
  strike_price : Option JSON
  expiration_date : Option JSON

def OptionSymbolInfo.fields (o : OptionSymbolInfo) : List (String × JSON) :=
  optField "underlying_symbol" (o.underlying_symbol.map UnderlyingSymbol.toJSON)
    ++ optField "ticker" o.ticker
    ++ optField "option_type" o.option_type
    ++ optField "strike_price" o.strike_price
    ++ optField "expiration_date" o.expiration_date

def OptionSymbolInfo.toJSON (o : OptionSymbolInfo) : JSON := .obj o.fields

/-- `option_positions[i].symbol` sub-object. -/
structure OptSymWrap where
  option_symbol : Option OptionSymbolInfo

def OptSymWrap.fields (o : OptSymWrap) : List (String × JSON) :=
  optField "option_symbol" (o.option_symbol.map OptionSymbolInfo.toJSON)

def OptSymWrap.toJSON (o : OptSymWrap) : JSON := .obj o.fields

/-- An element of the top-level `option_positions` list. -/
structure OptionPosition where
  symbol : Option OptSymWrap
  units : Option JSON
  price : Option JSON
  average_purchase_price : Option JSON
  currency : Option CurrencyInfo

def OptionPosition.fields (o : OptionPosition) : List (String × JSON) :=
  optField "symbol" (o.symbol.map OptSymWrap.toJSON)
    ++ optField "units" o.units
    ++ optField "price" o.price
    ++ optField "average_purchase_price" o.average_purchase_price
    ++ optField "currency" (o.currency.map CurrencyInfo.toJSON)

def OptionPosition.toJSON (o : OptionPosition) : JSON := .obj o.fields

/-- `orders[i].universal_symbol` sub-object. -/
structure UniversalSymbol where
  symbol : Option JSON

def UniversalSymbol.fields (u : UniversalSymbol) : List (String × JSON) :=
  optField "symbol" u.symbol

def UniversalSymbol.toJSON (u : UniversalSymbol) : JSON := .obj u.fields

/-- `orders[i].option_symbol` sub-object. -/
structure OrderOptionSymbol where
  ticker : Option JSON
  option_type : Option JSON
  strike_price : Option JSON
  expiration_date : Option JSON

def OrderOptionSymbol.fields (o : OrderOptionSymbol) : List (String × JSON) :=
  optField "ticker" o.ticker ++ optField "option_type" o.option_type
    ++ optField "strike_price" o.strike_price
    ++ optField "expiration_date" o.expiration_date

def OrderOptionSymbol.toJSON (o : OrderOptionSymbol) : JSON := .obj o.fields

/-- Is any of the four option-symbol keys present?  (Python's truthiness
of the rendered sub-dict: a present-but-empty dict is falsy.) -/
def OrderOptionSymbol.anyPresent (o : OrderOptionSymbol) : Bool :=
  o.ticker.isSome || o.option_type.isSome || o.strike_price.isSome
    || o.expiration_date.isSome

/-- An element of the top-level `orders` list. -/
structure Order where
  brokerage_order_id : Option JSON
  universal_symbol : Option UniversalSymbol
  action : Option JSON
  total_quantity : Option JSON
  filled_quantity : Option JSON
  execution_price : Option JSON
  order_type : Option JSON
  limit_price : Option JSON
  stop_price : Option JSON
  status : Option JSON
  time_placed : Option JSON
  time_executed : Option JSON
  time_updated : Option JSON
  expiry_date : Option JSON
  option_symbol : Option OrderOptionSymbol

def Order.fields (o : Order) : List (String × JSON) :=
  optField "brokerage_order_id" o.brokerage_order_id
    ++ optField "universal_symbol" (o.universal_symbol.map UniversalSymbol.toJSON)
    ++ optField "action" o.action
    ++ optField "total_quantity" o.total_quantity
    ++ optField "filled_quantity" o.filled_quantity
    ++ optField "execution_price" o.execution_price
    ++ optField "order_type" o.order_type
    ++ optField "limit_price" o.limit_price
    ++ optField "stop_price" o.stop_price
    ++ optField "status" o.status
    ++ optField "time_placed" o.time_placed
    ++ optField "time_executed" o.time_executed
    ++ optField "time_updated" o.time_updated
    ++ optField "expiry_date" o.expiry_date
    ++ optField "option_symbol" (o.option_symbol.map OrderOptionSymbol.toJSON)

def Order.toJSON (o : Order) : JSON := .obj o.fields

/-- A raw holdings payload over the adapter's schema with every nested
key independently optional. -/
structure Payload where
  account : Option AccountInfo
  balances : Option (List BalanceEntry)
  total_value : Option TotalValue
  positions : Option (List Position)
  option_positions : Option (List OptionPosition)
  orders : Option (List Order)

def Payload.fields (p : Payload) : List (String × JSON) :=
  optField "account" (p.account.map AccountInfo.toJSON)
    ++ optField "balances" (p.balances.map (fun l => .arr (l.map BalanceEntry.toJSON)))
    ++ optField "total_value" (p.total_value.map TotalValue.toJSON)
    ++ optField "positions" (p.positions.map (fun l => .arr (l.map Position.toJSON)))
    ++ optField "option_positions"
        (p.option_positions.map (fun l => .arr (l.map OptionPosition.toJSON)))
    ++ optField "orders" (p.orders.map (fun l => .arr (l.map Order.toJSON)))

def Payload.toJSON (p : Payload) : JSON := .obj p.fields

/-- The payload with every key missing. -/
def pay0 : Payload := ⟨none, none, none, none, none, none⟩

/-! ## The spec-side expected Full Snapshot

Modelled from the spec: "the Raw Response Adapter produces a structurally
complete Full Snapshot with null in place of every absent field" — the
snapshot with all keys present and, at each leaf, the source value when
its key path is present and `null` otherwise. -/

/-- A present leaf value, or `null` when absent. -/
def oj (o : Option JSON) : JSON := o.getD .null

/-- Expected flattening of one position: present leaves kept, absent
(sub)keys replaced by `null`. -/
def expPosition (pos : Position) : JSON := .obj [
  ("symbol", oj ((pos.symbol.bind PosSymbol.symbol).bind SymbolInner.symbol)),
  ("description", oj (pos.symbol.bind PosSymbol.description)),
  ("units", oj pos.units),
  ("fractional_units", oj pos.fractional_units),
  ("current_price", oj pos.price),
  ("average_purchase_price", oj pos.average_purchase_price),
  ("open_pnl", oj pos.open_pnl),
  ("exchange",
    oj (((pos.symbol.bind PosSymbol.symbol).bind SymbolInner.exchange).bind ExchangeInfo.code)),
  ("asset_type",
    oj (((pos.symbol.bind PosSymbol.symbol).bind SymbolInner.type).bind TypeInfo.description)),
  ("currency",
    oj (((pos.symbol.bind PosSymbol.symbol).bind SymbolInner.currency).bind CurrencyInfo.code))]

/-- Expected flattening of one option position. -/
def expOption (op : OptionPosition) : JSON := .obj [
  ("underlying_symbol",
    oj ((((op.symbol.bind OptSymWrap.option_symbol).bind
      OptionSymbolInfo.underlying_symbol).bind UnderlyingSymbol.symbol))),
  ("option_ticker",
    oj ((op.symbol.bind OptSymWrap.option_symbol).bind OptionSymbolInfo.ticker)),
  ("option_type",
    oj ((op.symbol.bind OptSymWrap.option_symbol).bind OptionSymbolInfo.option_type)),
  ("strike_price",
    oj ((op.symbol.bind OptSymWrap.option_symbol).bind OptionSymbolInfo.strike_price)),
  ("expiration_date",
    oj ((op.symbol.bind OptSymWrap.option_symbol).bind OptionSymbolInfo.expiration_date)),
  ("units", oj op.units),
  ("current_price", oj op.price),
  ("average_purchase_price", oj op.average_purchase_price),
  ("currency", oj (op.currency.bind CurrencyInfo.code))]

/-- Expected flattening of one order; the `option_symbol` sub-dict is
kept exactly when the source one is present and non-empty. -/
def expOrder (o : Order) : JSON :=
  let base := [("brokerage_order_id", oj o.brokerage_order_id),
    ("symbol", oj (o.universal_symbol.bind UniversalSymbol.symbol)),
    ("action", oj o.action),
    ("total_quantity", oj o.total_quantity),
    ("filled_quantity", oj o.filled_quantity),
    ("execution_price", oj o.execution_price),
    ("order_type", oj o.order_type),
    ("limit_price", oj o.limit_price),
    ("stop_price", oj o.stop_price),
    ("status", oj o.status),
    ("time_placed", oj o.time_placed),
    ("time_executed", oj o.time_executed),
    ("time_updated", oj o.time_updated),
    ("expiry_date", oj o.expiry_date)]
  match o.option_symbol with
  | some os =>
      if os.anyPresent then
        .obj (base ++ [("option_symbol", .obj [("ticker", oj os.ticker),
          ("option_type", oj os.option_type), ("strike_price", oj os.strike_price),
          ("expiration_date", oj os.expiration_date)])])
      else .obj base
  | none => .obj base

/-- Modelled from the spec (§4.1, §8.1): the structurally complete Full
Snapshot the adapter must produce on `Payload.toJSON p` — all keys
present, `null` at every absent source field. -/
def specCompleteSnapshot (now : String) (p : Payload) : JSON := .obj [
  ("metadata", .obj [
    ("account_id", oj (p.account.bind AccountInfo.id)),
    ("account_name", oj (p.account.bind AccountInfo.name)),
    ("pulled_at", .str now),
    ("institution_name", oj (p.account.bind AccountInfo.institution_name))]),
  ("balances", .obj [
    ("total_balance",
      oj (((p.account.bind AccountInfo.balance).bind AccountBalance.total).bind
        BalanceTotal.amount)),
    ("total_balance_currency",
      oj (((p.account.bind AccountInfo.balance).bind AccountBalance.total).bind
        BalanceTotal.currency)),
    ("cash_available",
      match p.balances with | some (e :: _) => oj e.cash | _ => .null),
    ("buying_power",
      match p.balances with | some (e :: _) => oj e.buying_power | _ => .null),
    ("total_portfolio_value", oj (p.total_value.bind TotalValue.value)),
    ("total_portfolio_currency", oj (p.total_value.bind TotalValue.currency))]),
  ("positions", .arr ((p.positions.getD []).map expPosition)),
  ("option_positions", .arr ((p.option_positions.getD []).map expOption)),
  ("orders", .arr ((p.orders.getD []).map expOrder))]

/-! ## Structural completeness of a Full Snapshot -/

/-- `j` is a dict containing at least the keys `ks`. -/
def objHasKeys (j : JSON) (ks : List String) : Bool :=
  match j with
  | .obj l => ks.all (fun k => (assocLookup l k).isSome)
  | _ => false

/-- Value under key `k` of a dict (`null` when absent). -/
def getKey (j : JSON) (k : String) : JSON :=
  match j with
  | .obj l => (assocLookup l k).getD .null
  | _ => .null

/-- `j` is a list each of whose elements is a dict with at least the
keys `ks`. -/
def arrAllKeys (j : JSON) (ks : List String) : Bool :=
  match j with
  | .arr xs => xs.all (fun x => objHasKeys x ks)
  | _ => false

/-- The Full Snapshot is structurally complete: all keys of `metadata`,
`balances`, each element of `positions`, `option_positions` and `orders`
are present (§3 of the spec). -/
def snapshotComplete (s : JSON) : Bool :=
  objHasKeys s ["metadata", "balances", "positions", "option_positions", "orders"] &&
  objHasKeys (getKey s "metadata")
    ["account_id", "account_name", "pulled_at", "institution_name"] &&
  objHasKeys (getKey s "balances")
    ["total_balance", "total_balance_currency", "cash_available",
     "buying_power", "total_portfolio_value", "total_portfolio_currency"] &&
  arrAllKeys (getKey s "positions")
    ["symbol", "description", "units", "fractional_units", "current_price",
     "average_purchase_price", "open_pnl", "exchange", "asset_type", "currency"] &&
  arrAllKeys (getKey s "option_positions")
    ["underlying_symbol", "option_ticker", "option_type", "strike_price",
     "expiration_date", "units", "current_price", "average_purchase_price",
     "currency"] &&
  arrAllKeys (getKey s "orders")
    ["brokerage_order_id", "symbol", "action", "total_quantity",
     "filled_quantity", "execution_price", "order_type", "limit_price",
     "stop_price", "status", "time_placed", "time_executed", "time_updated",
     "expiry_date"]

/-! ## The Small Snapshot the Reducer derives from a partial payload -/

/-- Reduction of one expected position to its four essential fields. -/
def expSmallPosition (pos : Position) : JSON := .obj [
  ("symbol", oj ((pos.symbol.bind PosSymbol.symbol).bind SymbolInner.symbol)),
  ("units", oj pos.units),
  ("current_price", oj pos.price),
  ("open_pnl", oj pos.open_pnl)]

/-- The Small Snapshot derived from the Full Snapshot of a partial
payload: nulls of the Full Snapshot are kept as nulls. -/
def expSmall (now : String) (p : Payload) : JSON := .obj [
  ("snapshot_date", .str now),
  ("account", oj (p.account.bind AccountInfo.name)),
  ("balances", .obj [
    ("total_balance",
      oj (((p.account.bind AccountInfo.balance).bind AccountBalance.total).bind
        BalanceTotal.amount)),
    ("cash_available",
      match p.balances with | some (e :: _) => oj e.cash | _ => .null),
    ("buying_power",
      match p.balances with | some (e :: _) => oj e.buying_power | _ => .null),
    ("total_portfolio_value", oj (p.total_value.bind TotalValue.value))]),
  ("positions", .arr ((p.positions.getD []).map expSmallPosition))]

/-! ## Typed Small Snapshots for the formatter claims

A well-typed Small Snapshot: string account and date, numeric balances
and position fields (the shape on which the formatters run without
raising), with `total_portfolio_value` optionally null. -/

/-- A position of a typed Small Snapshot. -/
structure SmallPos where
  symbol : String
  units : PyNum
  current_price : PyNum
  open_pnl : PyNum

def SmallPos.toJSON (p : SmallPos) : JSON := .obj [
  ("symbol", .str p.symbol), ("units", .num p.units),
  ("current_price", .num p.current_price), ("open_pnl", .num p.open_pnl)]

/-- A typed Small Snapshot. -/
structure SmallSnap where
  snapshot_date : String
  account : String
  total_balance : PyNum
  cash_available : PyNum
  buying_power : PyNum
  total_portfolio_value : Option PyNum
  positions : List SmallPos

/-- A possibly-null number. -/
def optNum : Option PyNum → JSON
  | none => .null
  | some q => .num q

def SmallSnap.toJSON (s : SmallSnap) : JSON := .obj [
  ("snapshot_date", .str s.snapshot_date), ("account", .str s.account),
  ("balances", .obj [
    ("total_balance", .num s.total_balance),
    ("cash_available", .num s.cash_available),
    ("buying_power", .num s.buying_power),
    ("total_portfolio_value", optNum s.total_portfolio_value)]),
  ("positions", .arr (s.positions.map SmallPos.toJSON))]

/-- The total position value `sum(units * current_price)` of a typed
Small Snapshot, as both formatters compute it. -/
def totalPosVal (s : SmallSnap) : PyNum :=
  s.positions.foldl (fun a p => a.add (p.units.mul p.current_price)) (PyNum.int 0)

/-- The total P&L `sum(open_pnl)`. -/
def totalPnl (s : SmallSnap) : PyNum :=
  s.positions.foldl (fun a p => a.add p.open_pnl) (PyNum.int 0)

/-- Python truthiness of the stored `total_portfolio_value`. -/
def tpvTruthy (s : SmallSnap) : Bool :=
  match s.total_portfolio_value with
  | none => false
  | some q => !q.isZero

/-- `total P&L ÷ total position value × 100`, the number both formatters
render on the percentage line. -/
def pctOf (s : SmallSnap) : PyNum :=
  ((totalPnl s).div (totalPosVal s)).mul (PyNum.int 100)

/-- The per-position block of the Report variant on a typed position. -/
def reportBlockOf (p : SmallPos) : List String :=
  [p.symbol ++ ":",
   "  Units: " ++ fmtFixed true 4 p.units,
   "  Current Price: $" ++ fmtFixed false 2 p.current_price,
   "  Position Value: $" ++ fmtFixed true 2 (p.units.mul p.current_price),
   "  P&L: " ++ (if p.open_pnl.ge0 then "🟢" else "🔴") ++ " "
     ++ (if p.open_pnl.ge0 then "+" else "") ++ "$" ++ fmtFixed false 2 p.open_pnl,
   ""]

/-- The full Report line list on a typed Small Snapshot. -/
def reportLinesOf (s : SmallSnap) : List String :=
  [repChar '=' 50, "PORTFOLIO SUMMARY - " ++ s.account, repChar '=' 50,
   "Snapshot Date: " ++ s.snapshot_date, "",
   "📊 ACCOUNT BALANCES", repChar '-' 20,
   "Total Balance: $" ++ fmtFixed true 2 s.total_balance,
   "Cash Available: $" ++ fmtFixed true 2 s.cash_available,
   "Buying Power: $" ++ fmtFixed true 2 s.buying_power]
  ++ (match s.total_portfolio_value with
      | some q => if !q.isZero then ["Portfolio Value: $" ++ fmtFixed true 2 q] else []
      | none => [])
  ++ [""]
  ++ (if s.positions.isEmpty then
        ["📈 POSITIONS", repChar '-' 20, "No positions found"]
      else
        ["📈 POSITIONS", repChar '-' 20] ++ (s.positions.map reportBlockOf).flatten
        ++ ["📋 PORTFOLIO SUMMARY", repChar '-' 20,
            "Total Positions Value: $" ++ fmtFixed true 2 (totalPosVal s),
            "Total P&L: " ++ (if (totalPnl s).ge0 then "+" else "") ++ "$"
              ++ fmtFixed false 2 (totalPnl s)]
        ++ (if tpvTruthy s && (totalPosVal s).gt0 then
              ["P&L %: " ++ (if (pctOf s).ge0 then "+" else "")
                ++ fmtFixed false 2 (pctOf s) ++ "%"]
            else []))
  ++ ["", repChar '=' 50]

/-- The per-position block of the Prompt variant on a typed position. -/
def llmBlockOf (p : SmallPos) : List String :=
  ["  " ++ p.symbol ++ ":",
   "    Units: " ++ fmtFixed true 4 p.units,
   "    Current Price: $" ++ fmtFixed false 2 p.current_price,
   "    Position Value: $" ++ fmtFixed true 2 (p.units.mul p.current_price),
   "    P&L: " ++ (if p.open_pnl.ge0 then "+" else "") ++ "$"
     ++ fmtFixed false 2 p.open_pnl,
   ""]

/-- The full Prompt-variant line list on a typed Small Snapshot. -/
def llmLinesOf (s : SmallSnap) : List String :=
  ["PORTFOLIO SNAPSHOT", "Account: " ++ s.account, "Date: " ++ s.snapshot_date, "",
   "ACCOUNT BALANCES:",
   "  Total Balance: $" ++ fmtFixed true 2 s.total_balance,
   "  Cash Available: $" ++ fmtFixed true 2 s.cash_available,
   "  Buying Power: $" ++ fmtFixed true 2 s.buying_power]
  ++ (match s.total_portfolio_value with
      | some q => if !q.isZero then ["  Portfolio Value: $" ++ fmtFixed true 2 q] else []
      | none => [])
  ++ [""]
  ++ (if s.positions.isEmpty then
        ["POSITIONS: No positions found"]
      else
        ["POSITIONS:"] ++ (s.positions.map llmBlockOf).flatten
        ++ ["PORTFOLIO SUMMARY:",
            "  Total Positions Value: $" ++ fmtFixed true 2 (totalPosVal s),
            "  Total P&L: " ++ (if (totalPnl s).ge0 then "+" else "") ++ "$"
              ++ fmtFixed false 2 (totalPnl s)]
        ++ (if (totalPosVal s).gt0 then
              ["  P&L %: " ++ (if (pctOf s).ge0 then "+" else "")
                ++ fmtFixed false 2 (pctOf s) ++ "%"]
            else []))

/-- Number of lines starting with the given marker. -/
def countStarts (ls : List String) (p : String) : Nat :=
  (ls.filter (fun l => strStarts l p)).length

/-- Is the result a success? -/
def isOkS (r : Except PyErr String) : Bool :=
  match r with
  | .ok _ => true
  | .error _ => false

/-! ## Concrete states and payloads used by the claim theorems -/

/-- Does a successful string result contain the given substring? -/
def outContains (r : Except PyErr String) (sub : String) : Bool :=
  match r with
  | .ok s => strContains s sub
  | .error _ => false

/-- A freshly initialised user with no registered accounts and no stored
holdings. -/
def u0 : UserState := ⟨"uid", "secret", [], []⟩

/-- The adapter output for the empty payload `{}`: the all-null Full
Snapshot pulled at `now`. -/
def snapAllNull (now : String) : JSON := specCompleteSnapshot now pay0

/-- A user with one registered account name `"A"` and no stored
holdings. -/
def u8 : UserState := ⟨"uid", "secret", [("A", .str "id-1")], []⟩

/-- A user holding the all-null Full Snapshot under `"Acme"`. -/
def u4 : UserState := ⟨"uid", "secret", [], [("Acme", snapAllNull "D")]⟩

/-- The typed Small Snapshot of testable property 5: one AAPL position,
10 units at 150 with open P&L 25.5, portfolio value 1500. -/
def s3w : SmallSnap := ⟨"2024-01-01T00:00:00", "Robinhood", ⟨1000, 1⟩, ⟨500, 1⟩,
  ⟨500, 1⟩, some ⟨1500, 1⟩, [⟨"AAPL", ⟨10, 1⟩, ⟨150, 1⟩, ⟨51, 2⟩⟩]⟩

/-- The Full Snapshot fields backing the Small Snapshot of testable
property 5 of the spec: one AAPL position (10 units at \$150.00, open P&L
\$25.50) and the given balances. -/
def full5 : JSON := .obj [
  ("metadata", .obj [("account_name", .str "Robinhood"),
    ("pulled_at", .str "2024-01-01T00:00:00")]),
  ("balances", .obj [("total_balance", jint 1000), ("cash_available", jint 500),
    ("buying_power", jint 500), ("total_portfolio_value", jint 1500)]),
  ("positions", .arr [.obj [("symbol", .str "AAPL"), ("units", jint 10),
    ("current_price", jint 150), ("open_pnl", jfrac 51 2)]])]

/-- A user holding `full5` under the account name `"Robinhood"`. -/
def u5 : UserState := ⟨"uid", "secret", [], [("Robinhood", full5)]⟩

/-- Like `full5` but with a null `total_portfolio_value`, so the report's
`P&L %` guard (`user.py` line 269) is falsy while the total position
value is 1500 > 0. -/
def full3 : JSON := .obj [
  ("metadata", .obj [("account_name", .str "Acme"), ("pulled_at", .str "D")]),
  ("balances", .obj [("total_balance", jint 1000), ("cash_available", jint 500),
    ("buying_power", jint 500), ("total_portfolio_value", .null)]),
  ("positions", .arr [.obj [("symbol", .str "AAPL"), ("units", jint 10),
    ("current_price", jint 150), ("open_pnl", jfrac 51 2)]])]

/-- A user holding `full3` under the account name `"Acme"`. -/
def u3 : UserState := ⟨"uid", "secret", [], [("Acme", full3)]⟩

/-- An account-list response whose second element lacks a `"name"` key
(but has an `"id"`), after a well-formed first element. -/
def resp10 : Except PyErr JSON := .ok (.arr [
  .obj [("name", .str "Alpha"), ("id", .str "1")],
  .obj [("id", .str "2")]])

/-! ## General lemmas -/

@[simp]
theorem except_bind_ok (a : α) (f : α → Except PyErr β) :
    (Except.ok a >>= f) = f a := rfl

@[simp]
theorem except_bind_err (e : PyErr) (f : α → Except PyErr β) :
    ((Except.error e : Except PyErr α) >>= f) = .error e := rfl

@[simp]
theorem except_pure_eq (a : α) : (pure a : Except PyErr α) = .ok a := rfl


@[simp]
theorem optField_none (k : String) : optField k none = [] := rfl

@[simp]
theorem optField_some (k : String) (v : JSON) : optField k (some v) = [(k, v)] := rfl

@[simp]
theorem assocLookup_nil (k : String) : assocLookup [] k = none := rfl

@[simp]
theorem assocLookup_optField_append (k' k : String) (v : Option JSON)
    (l : List (String × JSON)) :
    assocLookup (optField k' v ++ l) k
      = if k' = k then v.or (assocLookup l k) else assocLookup l k := by
  cases v <;> by_cases h : k' = k <;> simp [optField, assocLookup, h, Option.or]

@[simp]
theorem assocLookup_optField_bare (k' k : String) (v : Option JSON) :
    assocLookup (optField k' v) k = if k' = k then v else none := by
  cases v <;> by_cases h : k' = k <;> simp [optField, assocLookup, h]

theorem processPosition_toJSON (pos : Position) :
    processPosition (Position.toJSON pos) = .ok (expPosition pos) := by
  obtain ⟨ps, un, fu, pr, ap, op⟩ := pos
  rcases ps with _ | ⟨inner, desc⟩
  · simp [processPosition, chain2, chain3, chain4, pyGet, pyGetD, assocLookup, Position.toJSON,
      Position.fields, expPosition, oj]
  · rcases inner with _ | ⟨sy, ex, ty, cu⟩
    · simp [processPosition, chain2, chain3, chain4, pyGet, pyGetD, assocLookup, Position.toJSON,
        Position.fields, PosSymbol.toJSON, PosSymbol.fields, expPosition, oj]
    · rcases ex with _ | ⟨exc⟩ <;> rcases ty with _ | ⟨tyd⟩ <;> rcases cu with _ | ⟨cuc⟩ <;>
        simp [processPosition, chain2, chain3, chain4, pyGet, pyGetD, assocLookup, Position.toJSON,
          Position.fields, PosSymbol.toJSON, PosSymbol.fields, SymbolInner.toJSON,
          SymbolInner.fields, ExchangeInfo.toJSON, ExchangeInfo.fields,
          TypeInfo.toJSON, TypeInfo.fields, CurrencyInfo.toJSON, CurrencyInfo.fields,
          expPosition, oj]

theorem processOption_toJSON (op : OptionPosition) :
    processOption (OptionPosition.toJSON op) = .ok (expOption op) := by
  obtain ⟨sym, un, pr, ap, cur⟩ := op
  rcases sym with _ | ⟨osi⟩
  · rcases cur with _ | ⟨cuc⟩ <;>
      simp [processOption, chain2, chain3, chain4, pyGet, pyGetD, assocLookup,
        OptionPosition.toJSON, OptionPosition.fields, OptSymWrap.toJSON,
        OptSymWrap.fields, CurrencyInfo.toJSON, CurrencyInfo.fields, expOption, oj]
  · rcases osi with _ | ⟨us, tick, ot, sp, ed⟩
    · rcases cur with _ | ⟨cuc⟩ <;>
        simp [processOption, chain2, chain3, chain4, pyGet, pyGetD, assocLookup,
          OptionPosition.toJSON, OptionPosition.fields, OptSymWrap.toJSON,
          OptSymWrap.fields, CurrencyInfo.toJSON, CurrencyInfo.fields, expOption, oj]
    · rcases us with _ | ⟨uss⟩ <;> rcases cur with _ | ⟨cuc⟩ <;>
        simp [processOption, chain2, chain3, chain4, pyGet, pyGetD, assocLookup,
          OptionPosition.toJSON, OptionPosition.fields, OptSymWrap.toJSON,
          OptSymWrap.fields, OptionSymbolInfo.toJSON, OptionSymbolInfo.fields,
          UnderlyingSymbol.toJSON, UnderlyingSymbol.fields,
          CurrencyInfo.toJSON, CurrencyInfo.fields, expOption, oj]

set_option maxHeartbeats 2000000 in
theorem processOrder_toJSON (o : Order) :
    processOrder (Order.toJSON o) = .ok (expOrder o) := by
  obtain ⟨boi, us, act, tq, fq, ep, otp, lp, sp, st, tp, te, tu, ed, os⟩ := o
  rcases os with _ | ⟨t1, t2, t3, t4⟩
  · rcases us with _ | ⟨usym⟩ <;>
      simp [processOrder, chain2, pyGet, pyGetD, assocLookup, Order.toJSON, Order.fields,
        UniversalSymbol.toJSON, UniversalSymbol.fields, expOrder, oj, pyTruthy]
  · rcases us with _ | ⟨usym⟩ <;> rcases t1 with _ | ⟨x1⟩ <;> rcases t2 with _ | ⟨x2⟩ <;>
      rcases t3 with _ | ⟨x3⟩ <;> rcases t4 with _ | ⟨x4⟩ <;>
      simp [processOrder, chain2, pyGet, pyGetD, assocLookup, Order.toJSON, Order.fields,
        UniversalSymbol.toJSON, UniversalSymbol.fields, OrderOptionSymbol.toJSON,
        OrderOptionSymbol.fields, OrderOptionSymbol.anyPresent, expOrder, oj, pyTruthy]

theorem mapMExc_map_ok {β : Type} {f : α → JSON} {g : JSON → Except PyErr β}
    {h : α → β} (H : ∀ a, g (f a) = .ok (h a)) (l : List α) :
    mapMExc g (l.map f) = .ok (l.map h) := by
  induction l with
  | nil => rfl
  | cons a rest ih => simp [mapMExc, H, ih]

@[simp]
theorem mapMExc_processPosition (l : List Position) :
    mapMExc processPosition (l.map Position.toJSON) = .ok (l.map expPosition) :=
  mapMExc_map_ok processPosition_toJSON l

@[simp]
theorem mapMExc_processOption (l : List OptionPosition) :
    mapMExc processOption (l.map OptionPosition.toJSON) = .ok (l.map expOption) :=
  mapMExc_map_ok processOption_toJSON l

@[simp]
theorem mapMExc_processOrder (l : List Order) :
    mapMExc processOrder (l.map Order.toJSON) = .ok (l.map expOrder) :=
  mapMExc_map_ok processOrder_toJSON l

@[simp]
theorem map_arr_getD {α : Type} (o : Option (List α)) (f : α → JSON) :
    (o.map (fun l => JSON.arr (l.map f))).getD (JSON.arr [])
      = JSON.arr ((o.getD []).map f) := by
  cases o <;> rfl

set_option maxHeartbeats 2000000 in
theorem create_on_payload (now : String) (p : Payload) :
    create_holdings_snapshot now (Payload.toJSON p) = .ok (specCompleteSnapshot now p) := by
  obtain ⟨acc, bals, tv, poss, opts, ords⟩ := p
  rcases acc with _ | ⟨aid, anm, ainst, _ | ⟨_ | ⟨amt, cur⟩⟩⟩ <;>
    rcases tv with _ | ⟨tvv, tvc⟩ <;>
    rcases bals with _ | ⟨_ | ⟨⟨bcash, bbp⟩, brest⟩⟩ <;>
    simp [create_holdings_snapshot, chain2, chain3, chain4, pyGet, pyGetD, assocLookup, pyIter,
      pySub0, pyTruthy, Payload.toJSON, Payload.fields, AccountInfo.toJSON,
      AccountInfo.fields, AccountBalance.toJSON, AccountBalance.fields,
      BalanceTotal.toJSON, BalanceTotal.fields, BalanceEntry.toJSON,
      BalanceEntry.fields, TotalValue.toJSON, TotalValue.fields,
      specCompleteSnapshot, oj]


theorem expPosition_hasKeys (pos : Position) :
    objHasKeys (expPosition pos)
      ["symbol", "description", "units", "fractional_units", "current_price",
       "average_purchase_price", "open_pnl", "exchange", "asset_type", "currency"]
      = true := by
  simp [expPosition, objHasKeys, assocLookup]

theorem expOption_hasKeys (op : OptionPosition) :
    objHasKeys (expOption op)
      ["underlying_symbol", "option_ticker", "option_type", "strike_price",
       "expiration_date", "units", "current_price", "average_purchase_price",
       "currency"] = true := by
  simp [expOption, objHasKeys, assocLookup]

theorem expOrder_hasKeys (o : Order) :
    objHasKeys (expOrder o)
      ["brokerage_order_id", "symbol", "action", "total_quantity",
       "filled_quantity", "execution_price", "order_type", "limit_price",
       "stop_price", "status", "time_placed", "time_executed", "time_updated",
       "expiry_date"] = true := by
  cases ho : o.option_symbol with
  | none => simp [expOrder, ho, objHasKeys, assocLookup]
  | some os => cases hb : os.anyPresent <;> simp [expOrder, ho, hb, objHasKeys, assocLookup]

theorem assocLookup_dictInsert_self (l : List (String × JSON)) (k : String) (v : JSON) :
    assocLookup (dictInsert l k v) k = some v := by
  induction l with
  | nil => simp [dictInsert, assocLookup]
  | cons kv rest ih =>
    obtain ⟨k', v'⟩ := kv
    by_cases h : k' = k <;> simp [dictInsert, assocLookup, h, ih]

theorem countKey_cons (k' k : String) (v : JSON) (l : List (String × JSON)) :
    countKey ((k', v) :: l) k = (if k' = k then 1 else 0) + countKey l k := by
  by_cases h : k' = k <;> simp [countKey, List.filter_cons, h] <;> omega

theorem countKey_dictInsert (l : List (String × JSON)) (k : String) (v : JSON)
    (h : countKey l k ≤ 1) : countKey (dictInsert l k v) k = 1 := by
  induction l with
  | nil => simp [dictInsert, countKey_cons, countKey]
  | cons kv rest ih =>
    obtain ⟨k', v'⟩ := kv
    rw [countKey_cons] at h
    by_cases hk : k' = k
    · rw [if_pos hk] at h
      have h0 : countKey rest k = 0 := by omega
      simp [dictInsert, hk, countKey_cons, h0]
    · rw [if_neg hk] at h
      simp only [Nat.zero_add] at h
      simp [dictInsert, hk, countKey_cons, ih h]


theorem snapshotComplete_spec (now : String) (p : Payload) :
    snapshotComplete (specCompleteSnapshot now p) = true := by
  have hpos : getKey (specCompleteSnapshot now p) "positions"
      = .arr ((p.positions.getD []).map expPosition) := by
    simp [specCompleteSnapshot, getKey, assocLookup]
  have hopt : getKey (specCompleteSnapshot now p) "option_positions"
      = .arr ((p.option_positions.getD []).map expOption) := by
    simp [specCompleteSnapshot, getKey, assocLookup]
  have hord : getKey (specCompleteSnapshot now p) "orders"
      = .arr ((p.orders.getD []).map expOrder) := by
    simp [specCompleteSnapshot, getKey, assocLookup]
  simp only [snapshotComplete, Bool.and_eq_true, hpos, hopt, hord]
  refine ⟨⟨⟨⟨⟨?_, ?_⟩, ?_⟩, ?_⟩, ?_⟩, ?_⟩
  · simp [specCompleteSnapshot, objHasKeys, assocLookup]
  · simp [specCompleteSnapshot, objHasKeys, getKey, assocLookup]
  · simp [specCompleteSnapshot, objHasKeys, getKey, assocLookup]
  · simp only [arrAllKeys, List.all_eq_true]
    rintro j hj
    obtain ⟨a, ha, rfl⟩ := List.mem_map.mp hj
    exact expPosition_hasKeys a
  · simp only [arrAllKeys, List.all_eq_true]
    rintro j hj
    obtain ⟨a, ha, rfl⟩ := List.mem_map.mp hj
    exact expOption_hasKeys a
  · simp only [arrAllKeys, List.all_eq_true]
    rintro j hj
    obtain ⟨a, ha, rfl⟩ := List.mem_map.mp hj
    exact expOrder_hasKeys a

/-- C1: on every raw payload over the adapter's schema with arbitrarily
missing nested keys, the adapter never raises, and returns the
structurally complete Full Snapshot with `null` at every absent field. -/
theorem c1_adapter_null_safety (now : String) (p : Payload) :
    create_holdings_snapshot now (Payload.toJSON p)
      = .ok (specCompleteSnapshot now p) ∧
    snapshotComplete (specCompleteSnapshot now p) = true :=
  ⟨create_on_payload now p, snapshotComplete_spec now p⟩

/-- C2 (amended): the adapter fails (AttributeError) whenever the input
is not a mapping, and can also fail on a top-level mapping with malformed
nested values (a string under `"account"`, a null element in
`"balances"`); payloads whose only malformation is missing keys degrade
to null leaves and never raise. -/
theorem c2_amended :
    (∀ (now : String) (j : JSON), (∀ l, j ≠ .obj l) →
        create_holdings_snapshot now j = .error .attributeError) ∧
    create_holdings_snapshot "T" (.obj [("account", .str "oops")])
      = .error .attributeError ∧
    create_holdings_snapshot "T" (.obj [("balances", .arr [.null])])
      = .error .attributeError ∧
    (∀ (now : String) (p : Payload),
        create_holdings_snapshot now (Payload.toJSON p)
          = .ok (specCompleteSnapshot now p)) := by
  refine ⟨?_, rfl, rfl, fun now p => create_on_payload now p⟩
  intro now j h
  cases j <;> first | rfl | exact absurd rfl (h _)

/-- C2 (amended) witness: a non-mapping input (Python `None`) raises
`AttributeError`. -/
theorem c2_amended_witness :
    create_holdings_snapshot "T" JSON.null = .error .attributeError :=
  c2_amended.1 "T" JSON.null (fun _ h => JSON.noConfusion h)

/-- C8: two successful pulls for the same account name leave exactly the
second snapshot retrievable under that name, and exactly one entry for
that name is held (no history accumulates). -/
theorem c8_registry_overwrite (u : UserState) (name now1 now2 : String)
    (body1 body2 s1 s2 : JSON)
    (h1 : create_holdings_snapshot now1 body1 = .ok s1)
    (h2 : create_holdings_snapshot now2 body2 = .ok s2)
    (hreg : (assocLookup u.brokerage_accounts name).isSome = true)
    (hdup : countKey u.holdings name ≤ 1) :
    (pull_account_holdings now1 (.ok body1) u name).2 = true ∧
    (pull_account_holdings now2 (.ok body2)
        (pull_account_holdings now1 (.ok body1) u name).1 name).2 = true ∧
    assocLookup (pull_account_holdings now2 (.ok body2)
        (pull_account_holdings now1 (.ok body1) u name).1 name).1.holdings name
      = some s2 ∧
    countKey (pull_account_holdings now2 (.ok body2)
        (pull_account_holdings now1 (.ok body1) u name).1 name).1.holdings name
      = 1 := by
  rcases hs : assocLookup u.brokerage_accounts name with _ | v
  · rw [hs] at hreg
    simp at hreg
  · have e1 : pull_account_holdings now1 (.ok body1) u name
        = ({ u with holdings := dictInsert u.holdings name s1 }, true) := by
      simp [pull_account_holdings, hs, h1]
    have e2 : pull_account_holdings now2 (.ok body2)
          ({ u with holdings := dictInsert u.holdings name s1 }) name
        = ({ u with holdings := dictInsert (dictInsert u.holdings name s1) name s2 },
            true) := by
      simp [pull_account_holdings, hs, h2]
    have hc1 : countKey (dictInsert u.holdings name s1) name = 1 :=
      countKey_dictInsert _ _ _ hdup
    have hc2 : countKey (dictInsert (dictInsert u.holdings name s1) name s2) name = 1 :=
      countKey_dictInsert _ _ _ (by rw [hc1])
    refine ⟨?_, ?_, ?_, ?_⟩ <;>
      simp [e1, e2, assocLookup_dictInsert_self, hc2]


/-- C8 witness: two successful pulls of the empty payload for the
registered account `"A"`. -/
theorem c8_witness :
    (pull_account_holdings "t1" (.ok (.obj [])) u8 "A").2 = true ∧
    (pull_account_holdings "t2" (.ok (.obj []))
        (pull_account_holdings "t1" (.ok (.obj [])) u8 "A").1 "A").2 = true ∧
    assocLookup (pull_account_holdings "t2" (.ok (.obj []))
        (pull_account_holdings "t1" (.ok (.obj [])) u8 "A").1 "A").1.holdings "A"
      = some (snapAllNull "t2") ∧
    countKey (pull_account_holdings "t2" (.ok (.obj []))
        (pull_account_holdings "t1" (.ok (.obj [])) u8 "A").1 "A").1.holdings "A"
      = 1 :=
  c8_registry_overwrite u8 "A" "t1" "t2" (.obj []) (.obj [])
    (snapAllNull "t1") (snapAllNull "t2") rfl rfl rfl (by decide)


@[simp]
theorem smallPositionEntry_exp (pos : Position) :
    smallPositionEntry (expPosition pos) = .ok (expSmallPosition pos) := by
  simp [smallPositionEntry, pyGet, pyGetD, expPosition, expSmallPosition, assocLookup]

@[simp]
theorem mapMExc_smallPositionEntry (l : List Position) :
    mapMExc smallPositionEntry (l.map expPosition) = .ok (l.map expSmallPosition) :=
  mapMExc_map_ok smallPositionEntry_exp l

theorem small_on_spec (uid sec : String) (ba : List (String × JSON))
    (now name : String) (p : Payload) :
    small_holdings_snapshot ⟨uid, sec, ba, [(name, specCompleteSnapshot now p)]⟩ name
      = .ok (expSmall now p) := by
  simp [small_holdings_snapshot, assocLookup, chain2, pyGet, pyGetD, pyIter,
    specCompleteSnapshot, expSmall, oj]

set_option maxHeartbeats 2000000 in
/-- C4 (amended): nulls produced by the adapter survive the Snapshot
Reducer as nulls without failure, but both Text Formatter variants raise
`TypeError` on them (the Prompt variant's zero defaults apply only to
absent keys, not to present null values). -/
theorem c4_amended (uid sec : String) (ba : List (String × JSON))
    (now name : String) (p : Payload) (hacc : p.account = none) :
    small_holdings_snapshot ⟨uid, sec, ba, [(name, specCompleteSnapshot now p)]⟩ name
      = .ok (expSmall now p) ∧
    getKey (getKey (expSmall now p) "balances") "total_balance" = .null ∧
    format_portfolio_summary
        ⟨uid, sec, ba, [(name, specCompleteSnapshot now p)]⟩ name
      = .error .typeError ∧
    format_snapshot_for_llm (expSmall now p) = .error .typeError := by
  refine ⟨small_on_spec uid sec ba now name p, ?_, ?_, ?_⟩
  · simp [expSmall, getKey, assocLookup, hacc, oj]
  · simp [format_portfolio_summary, small_on_spec, pyTruthy, expSmall, summaryLines,
      pyIndexStr, assocLookup, pyGetD, pyFormatNum, hacc, oj]
  · simp [format_snapshot_for_llm, pyTruthy, expSmall, llmLines, pyGetD, pyGet,
      assocLookup, pyFormatNum, hacc, oj]

/-- C4 (amended) witness at the all-missing payload. -/
theorem c4_amended_witness :
    small_holdings_snapshot ⟨"u2", "s2", [], [("B", specCompleteSnapshot "D2" pay0)]⟩ "B"
      = .ok (expSmall "D2" pay0) ∧
    getKey (getKey (expSmall "D2" pay0) "balances") "total_balance" = .null ∧
    format_portfolio_summary
        ⟨"u2", "s2", [], [("B", specCompleteSnapshot "D2" pay0)]⟩ "B"
      = .error .typeError ∧
    format_snapshot_for_llm (expSmall "D2" pay0) = .error .typeError :=
  c4_amended "u2" "s2" [] "D2" "B" pay0 rfl

/-- C4 (counterexample): the all-null Full Snapshot produced by the
adapter on the empty payload reduces to an all-null Small Snapshot, on
which the Report variant raises `TypeError` at the `Total Balance`
format and the Prompt variant raises `TypeError` as well — nulls are not
propagated without failure. -/
theorem c4_counterexample :
    create_holdings_snapshot "D" (.obj []) = .ok (snapAllNull "D") ∧
    small_holdings_snapshot u4 "Acme" = .ok (expSmall "D" pay0) ∧
    format_portfolio_summary u4 "Acme" = .error .typeError ∧
    format_snapshot_for_llm (expSmall "D" pay0) = .error .typeError :=
  ⟨rfl, rfl, rfl, rfl⟩


theorem isPrefixOf_append_right (p s t : List Char) (h : p.isPrefixOf s = true) :
    p.isPrefixOf (s ++ t) = true := by
  induction p generalizing s with
  | nil => simp only [List.isPrefixOf]
  | cons c ps ih =>
    cases s with
    | nil => exact Bool.noConfusion h
    | cons d ss =>
      simp only [List.isPrefixOf, List.cons_append, Bool.and_eq_true] at h ⊢
      exact ⟨h.1, ih ss h.2⟩

theorem prefix_total_of_prefix_append (x y t : List Char)
    (h : y.isPrefixOf (x ++ t) = true) :
    x.isPrefixOf y = true ∨ y.isPrefixOf x = true := by
  induction x generalizing y with
  | nil => left; simp only [List.isPrefixOf]
  | cons c xs ih =>
    cases y with
    | nil => right; simp only [List.isPrefixOf]
    | cons d ys =>
      simp only [List.isPrefixOf, List.cons_append, Bool.and_eq_true,
        beq_iff_eq] at h ⊢
      rcases ih ys h.2 with h1 | h1
      · left; exact ⟨h.1.symm, h1⟩
      · right; exact ⟨h.1, h1⟩

theorem isPrefixOf_append_cancel (l p s : List Char) :
    (l ++ p).isPrefixOf (l ++ s) = p.isPrefixOf s := by
  induction l with
  | nil => rfl
  | cons c ls ih => simp only [List.cons_append, List.isPrefixOf, List.append_eq,
      ih, beq_self_eq_true, Bool.true_and]

theorem strStarts_append_true (a b p : String) (h : strStarts a p = true) :
    strStarts (a ++ b) p = true := by
  unfold strStarts at h ⊢
  rw [String.data_append]
  exact isPrefixOf_append_right _ _ _ h

theorem strStarts_append_false (a b p : String)
    (h1 : p.data.isPrefixOf a.data = false) (h2 : a.data.isPrefixOf p.data = false) :
    strStarts (a ++ b) p = false := by
  unfold strStarts
  rw [String.data_append]
  cases hq : p.data.isPrefixOf (a.data ++ b.data) with
  | false => rfl
  | true =>
    rcases prefix_total_of_prefix_append _ _ _ hq with hc | hc
    · rw [hc] at h2; exact h2
    · rw [hc] at h1; exact h1

theorem strStarts_cancel (a x y : String) :
    strStarts (a ++ x) (a ++ y) = strStarts x y := by
  unfold strStarts
  rw [String.data_append, String.data_append]
  exact isPrefixOf_append_cancel _ _ _

theorem countStarts_nil (p : String) : countStarts [] p = 0 := rfl

theorem countStarts_cons (l : String) (ls : List String) (p : String) :
    countStarts (l :: ls) p
      = (if strStarts l p then 1 else 0) + countStarts ls p := by
  cases h : strStarts l p <;> simp [countStarts, List.filter_cons, h] <;> omega

theorem countStarts_append (a b : List String) (p : String) :
    countStarts (a ++ b) p = countStarts a p + countStarts b p := by
  simp [countStarts, List.filter_append]

theorem PyNum.isZero_false_of_gt0 (a : PyNum) (h : a.gt0 = true) :
    a.isZero = false := by
  simp [PyNum.gt0] at h
  simp [PyNum.isZero]
  omega

theorem reportPositionBlock_typed (p : SmallPos) :
    reportPositionBlock (SmallPos.toJSON p) = .ok (reportBlockOf p) := by
  simp [reportPositionBlock, SmallPos.toJSON, pyIndexStr, assocLookup, pyMul, asNum,
    numGe0, pyFormatNum, reportBlockOf, pyStr, pyStrAtom]

@[simp]
theorem mapMExc_reportBlock (l : List SmallPos) :
    mapMExc reportPositionBlock (l.map SmallPos.toJSON) = .ok (l.map reportBlockOf) :=
  mapMExc_map_ok reportPositionBlock_typed l

@[simp]
theorem foldMExc_sumUP (l : List SmallPos) (a : PyNum) :
    foldMExc sumUnitsPriceStep (JSON.num a) (l.map SmallPos.toJSON)
      = .ok (.num (l.foldl (fun x p => x.add (p.units.mul p.current_price)) a)) := by
  induction l generalizing a with
  | nil => rfl
  | cons p rest ih =>
    simp [foldMExc, sumUnitsPriceStep, SmallPos.toJSON, pyIndexStr, assocLookup,
      pyMul, pyAdd, asNum, ih]

@[simp]
theorem foldMExc_sumPnl (l : List SmallPos) (a : PyNum) :
    foldMExc sumPnlStep (JSON.num a) (l.map SmallPos.toJSON)
      = .ok (.num (l.foldl (fun x p => x.add p.open_pnl) a)) := by
  induction l generalizing a with
  | nil => rfl
  | cons p rest ih =>
    simp [foldMExc, sumPnlStep, SmallPos.toJSON, pyIndexStr, assocLookup,
      pyAdd, asNum, ih]

@[simp]
theorem foldMExc_llm (l : List SmallPos) (a b : PyNum) (acc : List String) :
    foldMExc llmPosStep (JSON.num a, JSON.num b, acc) (l.map SmallPos.toJSON)
      = .ok (.num (l.foldl (fun x p => x.add (p.units.mul p.current_price)) a),
             .num (l.foldl (fun x p => x.add p.open_pnl) b),
             acc ++ (l.map llmBlockOf).flatten) := by
  induction l generalizing a b acc with
  | nil => simp [foldMExc]
  | cons p rest ih =>
    simp [foldMExc, llmPosStep, SmallPos.toJSON, pyIndexStr, pyGetD, assocLookup,
      pyMul, pyAdd, asNum, numGe0, pyFormatNum, llmBlockOf, pyStr, pyStrAtom, ih,
      List.append_assoc]


@[simp]
theorem isEmpty_map_smallpos (l : List SmallPos) :
    (l.map SmallPos.toJSON).isEmpty = l.isEmpty := by
  cases l <;> rfl

set_option maxHeartbeats 4000000 in
theorem summaryLines_typed (s : SmallSnap) :
    summaryLines (SmallSnap.toJSON s) = .ok (reportLinesOf s) := by
  obtain ⟨dt, ac, tb, ca, bp, tpv, pos⟩ := s
  rcases tpv with _ | ⟨q⟩
  · cases he : pos.isEmpty <;>
      simp [he, summaryLines, SmallSnap.toJSON, pyIndexStr, pyGet, pyGetD, assocLookup,
      pyTruthy, pyIter, optNum, pyStr, pyStrAtom, pyFormatNum, reportLinesOf,
      totalPosVal, totalPnl, tpvTruthy, pctOf, numGt0, numGe0, asNum, jint]
  · cases hz : q.isZero with
    | false =>
      cases hg : (pos.foldl (fun a p => a.add (p.units.mul p.current_price))
          (PyNum.int 0)).gt0 with
      | true =>
        cases he : pos.isEmpty <;>
      simp [he, summaryLines, SmallSnap.toJSON, pyIndexStr, pyGet, pyGetD, assocLookup,
          pyTruthy, pyIter, optNum, pyStr, pyStrAtom, pyFormatNum, reportLinesOf,
          totalPosVal, totalPnl, tpvTruthy, pctOf, numGt0, numGe0, asNum, jint,
          pyDiv, pyMul, hz, hg, PyNum.isZero_false_of_gt0 _ hg]
      | false =>
        cases he : pos.isEmpty <;>
      simp [he, summaryLines, SmallSnap.toJSON, pyIndexStr, pyGet, pyGetD, assocLookup,
          pyTruthy, pyIter, optNum, pyStr, pyStrAtom, pyFormatNum, reportLinesOf,
          totalPosVal, totalPnl, tpvTruthy, pctOf, numGt0, numGe0, asNum, jint,
          hz, hg]
    | true =>
      cases he : pos.isEmpty <;>
      simp [he, summaryLines, SmallSnap.toJSON, pyIndexStr, pyGet, pyGetD, assocLookup,
        pyTruthy, pyIter, optNum, pyStr, pyStrAtom, pyFormatNum, reportLinesOf,
        totalPosVal, totalPnl, tpvTruthy, pctOf, numGt0, numGe0, asNum, jint, hz]

set_option maxHeartbeats 4000000 in
theorem llmLines_typed (s : SmallSnap) :
    llmLines (SmallSnap.toJSON s) = .ok (llmLinesOf s) := by
  obtain ⟨dt, ac, tb, ca, bp, tpv, pos⟩ := s
  have hcase : ∀ hg : (pos.foldl (fun a p => a.add (p.units.mul p.current_price))
      (PyNum.int 0)).gt0 = true,
      (pos.foldl (fun a p => a.add (p.units.mul p.current_price))
        (PyNum.int 0)).isZero = false := fun hg => PyNum.isZero_false_of_gt0 _ hg
  rcases tpv with _ | ⟨q⟩
  · cases hg : (pos.foldl (fun a p => a.add (p.units.mul p.current_price))
        (PyNum.int 0)).gt0 with
    | true =>
      cases he : pos.isEmpty <;>
      simp [he, llmLines, SmallSnap.toJSON, pyIndexStr, pyGet, pyGetD, assocLookup,
        pyTruthy, pyIter, optNum, pyStr, pyStrAtom, pyFormatNum, llmLinesOf,
        totalPosVal, totalPnl, pctOf, numGt0, numGe0, asNum, jint,
        pyDiv, pyMul, hg, hcase hg]
    | false =>
      cases he : pos.isEmpty <;>
      simp [he, llmLines, SmallSnap.toJSON, pyIndexStr, pyGet, pyGetD, assocLookup,
        pyTruthy, pyIter, optNum, pyStr, pyStrAtom, pyFormatNum, llmLinesOf,
        totalPosVal, totalPnl, pctOf, numGt0, numGe0, asNum, jint, hg]
  · cases hz : q.isZero with
    | false =>
      cases hg : (pos.foldl (fun a p => a.add (p.units.mul p.current_price))
          (PyNum.int 0)).gt0 with
      | true =>
        cases he : pos.isEmpty <;>
      simp [he, llmLines, SmallSnap.toJSON, pyIndexStr, pyGet, pyGetD, assocLookup,
          pyTruthy, pyIter, optNum, pyStr, pyStrAtom, pyFormatNum, llmLinesOf,
          totalPosVal, totalPnl, pctOf, numGt0, numGe0, asNum, jint,
          pyDiv, pyMul, hz, hg, hcase hg]
      | false =>
        cases he : pos.isEmpty <;>
      simp [he, llmLines, SmallSnap.toJSON, pyIndexStr, pyGet, pyGetD, assocLookup,
          pyTruthy, pyIter, optNum, pyStr, pyStrAtom, pyFormatNum, llmLinesOf,
          totalPosVal, totalPnl, pctOf, numGt0, numGe0, asNum, jint, hz, hg]
    | true =>
      cases hg : (pos.foldl (fun a p => a.add (p.units.mul p.current_price))
          (PyNum.int 0)).gt0 with
      | true =>
        cases he : pos.isEmpty <;>
      simp [he, llmLines, SmallSnap.toJSON, pyIndexStr, pyGet, pyGetD, assocLookup,
          pyTruthy, pyIter, optNum, pyStr, pyStrAtom, pyFormatNum, llmLinesOf,
          totalPosVal, totalPnl, pctOf, numGt0, numGe0, asNum, jint,
          pyDiv, pyMul, hz, hg, hcase hg]
      | false =>
        cases he : pos.isEmpty <;>
      simp [he, llmLines, SmallSnap.toJSON, pyIndexStr, pyGet, pyGetD, assocLookup,
          pyTruthy, pyIter, optNum, pyStr, pyStrAtom, pyFormatNum, llmLinesOf,
          totalPosVal, totalPnl, pctOf, numGt0, numGe0, asNum, jint, hz, hg]


theorem countBlocks_report (P : List SmallPos)
    (hsym : ∀ p ∈ P, strStarts (p.symbol ++ ":") "P&L %:" = false) :
    countStarts (P.map reportBlockOf).flatten "P&L %:" = 0 := by
  have hu : ∀ x, strStarts ("  Units: " ++ x) "P&L %:" = false :=
    fun x => strStarts_append_false _ _ _ (by decide) (by decide)
  have hc : ∀ x, strStarts ("  Current Price: $" ++ x) "P&L %:" = false :=
    fun x => strStarts_append_false _ _ _ (by decide) (by decide)
  have hv : ∀ x, strStarts ("  Position Value: $" ++ x) "P&L %:" = false :=
    fun x => strStarts_append_false _ _ _ (by decide) (by decide)
  have hl : ∀ x, strStarts ("  P&L: " ++ x) "P&L %:" = false :=
    fun x => strStarts_append_false _ _ _ (by decide) (by decide)
  have he : strStarts "" "P&L %:" = false := by decide
  induction P with
  | nil => rfl
  | cons p rest ih =>
    rw [List.map_cons, List.flatten_cons, countStarts_append]
    rw [ih (fun q hq => hsym q (List.mem_cons_of_mem _ hq))]
    simp [reportBlockOf, countStarts_cons, countStarts_nil, String.append_assoc,
      hu, hc, hv, hl, he, hsym p (List.mem_cons_self _ _)]

theorem countBlocks_llm (P : List SmallPos)
    (hsym : ∀ p ∈ P, strStarts (p.symbol ++ ":") "P&L %:" = false) :
    countStarts (P.map llmBlockOf).flatten "  P&L %:" = 0 := by
  have hu : ∀ x, strStarts ("    Units: " ++ x) "  P&L %:" = false :=
    fun x => strStarts_append_false _ _ _ (by decide) (by decide)
  have hc : ∀ x, strStarts ("    Current Price: $" ++ x) "  P&L %:" = false :=
    fun x => strStarts_append_false _ _ _ (by decide) (by decide)
  have hv : ∀ x, strStarts ("    Position Value: $" ++ x) "  P&L %:" = false :=
    fun x => strStarts_append_false _ _ _ (by decide) (by decide)
  have hl : ∀ x, strStarts ("    P&L: " ++ x) "  P&L %:" = false :=
    fun x => strStarts_append_false _ _ _ (by decide) (by decide)
  have he : strStarts "" "  P&L %:" = false := by decide
  have hsym2 : ∀ p ∈ P, strStarts ("  " ++ (p.symbol ++ ":")) "  P&L %:" = false := by
    intro p hp
    rw [show ("  P&L %:" : String) = "  " ++ "P&L %:" by decide, strStarts_cancel]
    exact hsym p hp
  induction P with
  | nil => rfl
  | cons p rest ih =>
    rw [List.map_cons, List.flatten_cons, countStarts_append]
    rw [ih (fun q hq => hsym q (List.mem_cons_of_mem _ hq))
        (fun q hq => hsym2 q (List.mem_cons_of_mem _ hq))]
    simp [llmBlockOf, countStarts_cons, countStarts_nil, String.append_assoc,
      hu, hc, hv, hl, he, hsym2 p (List.mem_cons_self _ _)]


theorem countStarts_reportLines (s : SmallSnap) (hp : s.positions.isEmpty = false)
    (hsym : ∀ p ∈ s.positions, strStarts (p.symbol ++ ":") "P&L %:" = false) :
    countStarts (reportLinesOf s) "P&L %:"
      = if tpvTruthy s && (totalPosVal s).gt0 then 1 else 0 := by
  have h1 : ∀ x, strStarts ("PORTFOLIO SUMMARY - " ++ x) "P&L %:" = false :=
    fun x => strStarts_append_false _ _ _ (by decide) (by decide)
  have h2 : ∀ x, strStarts ("Snapshot Date: " ++ x) "P&L %:" = false :=
    fun x => strStarts_append_false _ _ _ (by decide) (by decide)
  have h3 : ∀ x, strStarts ("Total Balance: $" ++ x) "P&L %:" = false :=
    fun x => strStarts_append_false _ _ _ (by decide) (by decide)
  have h4 : ∀ x, strStarts ("Cash Available: $" ++ x) "P&L %:" = false :=
    fun x => strStarts_append_false _ _ _ (by decide) (by decide)
  have h5 : ∀ x, strStarts ("Buying Power: $" ++ x) "P&L %:" = false :=
    fun x => strStarts_append_false _ _ _ (by decide) (by decide)
  have h6 : ∀ x, strStarts ("Portfolio Value: $" ++ x) "P&L %:" = false :=
    fun x => strStarts_append_false _ _ _ (by decide) (by decide)
  have h7 : ∀ x, strStarts ("Total Positions Value: $" ++ x) "P&L %:" = false :=
    fun x => strStarts_append_false _ _ _ (by decide) (by decide)
  have h8 : ∀ x, strStarts ("Total P&L: " ++ x) "P&L %:" = false :=
    fun x => strStarts_append_false _ _ _ (by decide) (by decide)
  have t1 : ∀ x, strStarts ("P&L %: " ++ x) "P&L %:" = true :=
    fun x => strStarts_append_true _ _ _ (by decide)
  have e1 : strStarts (repChar '=' 50) "P&L %:" = false := by decide
  have e2 : strStarts (repChar '-' 20) "P&L %:" = false := by decide
  have e3 : strStarts "" "P&L %:" = false := by decide
  have e4 : strStarts "📊 ACCOUNT BALANCES" "P&L %:" = false := by decide
  have e5 : strStarts "📈 POSITIONS" "P&L %:" = false := by decide
  have e6 : strStarts "📋 PORTFOLIO SUMMARY" "P&L %:" = false := by decide
  have hpv : countStarts (match s.total_portfolio_value with
      | some q => if q.isZero = false then ["Portfolio Value: $" ++ fmtFixed true 2 q]
          else []
      | none => []) "P&L %:" = 0 := by
    rcases s.total_portfolio_value with _ | q
    · rfl
    · cases hbq : q.isZero <;> simp [hbq, countStarts_cons, countStarts_nil, h6]
  have hb := countBlocks_report s.positions hsym
  cases hc : tpvTruthy s && (totalPosVal s).gt0 <;>
    simp [reportLinesOf, hp, hc, countStarts_cons, countStarts_append,
      countStarts_nil, hpv, hb, String.append_assoc, h1, h2, h3, h4, h5, h7, h8,
      t1, e1, e2, e3, e4, e5, e6]

theorem countStarts_llmLines (s : SmallSnap) (hp : s.positions.isEmpty = false)
    (hsym : ∀ p ∈ s.positions, strStarts (p.symbol ++ ":") "P&L %:" = false) :
    countStarts (llmLinesOf s) "  P&L %:"
      = if (totalPosVal s).gt0 then 1 else 0 := by
  have h1 : ∀ x, strStarts ("Account: " ++ x) "  P&L %:" = false :=
    fun x => strStarts_append_false _ _ _ (by decide) (by decide)
  have h2 : ∀ x, strStarts ("Date: " ++ x) "  P&L %:" = false :=
    fun x => strStarts_append_false _ _ _ (by decide) (by decide)
  have h3 : ∀ x, strStarts ("  Total Balance: $" ++ x) "  P&L %:" = false :=
    fun x => strStarts_append_false _ _ _ (by decide) (by decide)
  have h4 : ∀ x, strStarts ("  Cash Available: $" ++ x) "  P&L %:" = false :=
    fun x => strStarts_append_false _ _ _ (by decide) (by decide)
  have h5 : ∀ x, strStarts ("  Buying Power: $" ++ x) "  P&L %:" = false :=
    fun x => strStarts_append_false _ _ _ (by decide) (by decide)
  have h6 : ∀ x, strStarts ("  Portfolio Value: $" ++ x) "  P&L %:" = false :=
    fun x => strStarts_append_false _ _ _ (by decide) (by decide)
  have h7 : ∀ x, strStarts ("  Total Positions Value: $" ++ x) "  P&L %:" = false :=
    fun x => strStarts_append_false _ _ _ (by decide) (by decide)
  have h8 : ∀ x, strStarts ("  Total P&L: " ++ x) "  P&L %:" = false :=
    fun x => strStarts_append_false _ _ _ (by decide) (by decide)
  have t1 : ∀ x, strStarts ("  P&L %: " ++ x) "  P&L %:" = true :=
    fun x => strStarts_append_true _ _ _ (by decide)
  have e1 : strStarts "PORTFOLIO SNAPSHOT" "  P&L %:" = false := by decide
  have e2 : strStarts "" "  P&L %:" = false := by decide
  have e3 : strStarts "ACCOUNT BALANCES:" "  P&L %:" = false := by decide
  have e4 : strStarts "POSITIONS:" "  P&L %:" = false := by decide
  have e5 : strStarts "PORTFOLIO SUMMARY:" "  P&L %:" = false := by decide
  have hpv : countStarts (match s.total_portfolio_value with
      | some q => if q.isZero = false then ["  Portfolio Value: $" ++ fmtFixed true 2 q]
          else []
      | none => []) "  P&L %:" = 0 := by
    rcases s.total_portfolio_value with _ | q
    · rfl
    · cases hbq : q.isZero <;> simp [hbq, countStarts_cons, countStarts_nil, h6]
  have hb := countBlocks_llm s.positions hsym
  cases hg : (totalPosVal s).gt0 <;>
    simp [llmLinesOf, hp, hg, countStarts_cons, countStarts_append,
      countStarts_nil, hpv, hb, String.append_assoc, h1, h2, h3, h4, h5, h7, h8,
      t1, e1, e2, e3, e4, e5]

/-- C3 (amended): both formatter line lists are fully characterized; the
Prompt variant emits the `P&L %` line iff the total position value is
strictly positive, while the Report variant emits it iff additionally the
stored `total_portfolio_value` is truthy; when emitted, the rendered
number is `total P&L ÷ total position value × 100` to two decimals. -/
theorem c3_amended (s : SmallSnap) (hp : s.positions.isEmpty = false)
    (hsym : ∀ p ∈ s.positions, strStarts (p.symbol ++ ":") "P&L %:" = false) :
    summaryLines (SmallSnap.toJSON s) = .ok (reportLinesOf s) ∧
    llmLines (SmallSnap.toJSON s) = .ok (llmLinesOf s) ∧
    countStarts (reportLinesOf s) "P&L %:"
      = (if tpvTruthy s && (totalPosVal s).gt0 then 1 else 0) ∧
    ((tpvTruthy s && (totalPosVal s).gt0) = true →
      ("P&L %: " ++ (if (pctOf s).ge0 then "+" else "")
        ++ fmtFixed false 2 (pctOf s) ++ "%") ∈ reportLinesOf s) ∧
    countStarts (llmLinesOf s) "  P&L %:"
      = (if (totalPosVal s).gt0 then 1 else 0) ∧
    ((totalPosVal s).gt0 = true →
      ("  P&L %: " ++ (if (pctOf s).ge0 then "+" else "")
        ++ fmtFixed false 2 (pctOf s) ++ "%") ∈ llmLinesOf s) := by
  refine ⟨summaryLines_typed s, llmLines_typed s,
    countStarts_reportLines s hp hsym, ?_, countStarts_llmLines s hp hsym, ?_⟩
  · intro hc
    simp [reportLinesOf, hp, hc]
  · intro hg
    simp [llmLinesOf, hp, hg]

set_option maxRecDepth 100000 in
/-- C3 (counterexample): a Small Snapshot with one AAPL position (total
position value 1500 > 0) but a null `total_portfolio_value`: the Report
variant emits no `P&L %` line at all, while the Prompt variant does —
refuting the claimed iff for both variants. -/
theorem c3_counterexample :
    isOkS (format_portfolio_summary u3 "Acme") = true ∧
    outContains (format_portfolio_summary u3 "Acme")
      "Total Positions Value: $1,500.00" = true ∧
    outContains (format_portfolio_summary u3 "Acme") "P&L %" = false ∧
    outContains (small_holdings_snapshot u3 "Acme" >>= format_snapshot_for_llm)
      "P&L %: +1.70%" = true :=
  ⟨rfl, rfl, rfl, rfl⟩

/-- C3 (amended) witness at a concrete one-position snapshot. -/
theorem c3_amended_witness :
    summaryLines (SmallSnap.toJSON s3w) = .ok (reportLinesOf s3w) ∧
    llmLines (SmallSnap.toJSON s3w) = .ok (llmLinesOf s3w) ∧
    countStarts (reportLinesOf s3w) "P&L %:"
      = (if tpvTruthy s3w && (totalPosVal s3w).gt0 then 1 else 0) ∧
    ((tpvTruthy s3w && (totalPosVal s3w).gt0) = true →
      ("P&L %: " ++ (if (pctOf s3w).ge0 then "+" else "")
        ++ fmtFixed false 2 (pctOf s3w) ++ "%") ∈ reportLinesOf s3w) ∧
    countStarts (llmLinesOf s3w) "  P&L %:"
      = (if (totalPosVal s3w).gt0 then 1 else 0) ∧
    ((totalPosVal s3w).gt0 = true →
      ("  P&L %: " ++ (if (pctOf s3w).ge0 then "+" else "")
        ++ fmtFixed false 2 (pctOf s3w) ++ "%") ∈ llmLinesOf s3w) :=
  c3_amended s3w rfl (by decide)

/-! ## Claim theorems -/

/-- C2 (counterexample): the claim says `_create_holdings_snapshot`
degrades gracefully on every top-level mapping, including a string under
`"account"`; in fact such a payload raises `AttributeError` (a string
has no `.get`). -/
theorem c2_counterexample :
    create_holdings_snapshot "2024-01-01T00:00:00"
      (.obj [("account", .str "oops")]) = .error .attributeError := rfl

set_option maxRecDepth 100000 in
/-- C5: on the Small Snapshot of testable property 5 (one AAPL position,
10 units at \$150.00, open P&L \$25.50; balances 1000/500/500/1500), the
Report variant's output contains all five required substrings. -/
theorem c5_report_numeric_example :
    outContains (format_portfolio_summary u5 "Robinhood")
      "Position Value: $1,500.00" = true ∧
    outContains (format_portfolio_summary u5 "Robinhood")
      "P&L: +$25.50" = true ∧
    outContains (format_portfolio_summary u5 "Robinhood")
      "Total Positions Value: $1,500.00" = true ∧
    outContains (format_portfolio_summary u5 "Robinhood")
      "Total P&L: +$25.50" = true ∧
    outContains (format_portfolio_summary u5 "Robinhood")
      "P&L %: +1.70%" = true :=
  ⟨rfl, rfl, rfl, rfl, rfl⟩

/-- C6 (counterexample): for an account with no stored holdings the
Prompt variant returns the fixed message
`"No portfolio data available for analysis."`, which does not name the
account — contradicting the claim that each variant's no-data message
names the account. -/
theorem c6_counterexample :
    small_holdings_snapshot u0 "MyBrokerage" = .ok (.obj []) ∧
    format_snapshot_for_llm (.obj [])
      = .ok "No portfolio data available for analysis." ∧
    strContains "No portfolio data available for analysis." "MyBrokerage"
      = false :=
  ⟨rfl, rfl, rfl⟩

/-- C6 (amended): for every account name with no stored holdings, the
Small Snapshot is empty, the Report variant returns exactly
`"No holdings data available for account: {name}"`, and the Prompt
variant returns the fixed single-line message
`"No portfolio data available for analysis."` (not naming the account). -/
theorem c6_amended (u : UserState) (name : String)
    (h : assocLookup u.holdings name = none) :
    small_holdings_snapshot u name = .ok (.obj []) ∧
    format_portfolio_summary u name
      = .ok ("No holdings data available for account: " ++ name) ∧
    format_snapshot_for_llm (.obj [])
      = .ok "No portfolio data available for analysis." := by
  have hs : small_holdings_snapshot u name = .ok (.obj []) := by
    unfold small_holdings_snapshot
    rw [h]
  refine ⟨hs, ?_, rfl⟩
  unfold format_portfolio_summary
  rw [hs]
  simp [pyTruthy]

/-- C6 (amended) witness at the concrete state `u0`. -/
theorem c6_amended_witness :
    small_holdings_snapshot u0 "Fidelity" = .ok (.obj []) ∧
    format_portfolio_summary u0 "Fidelity"
      = .ok ("No holdings data available for account: " ++ "Fidelity") ∧
    format_snapshot_for_llm (.obj [])
      = .ok "No portfolio data available for analysis." :=
  c6_amended u0 "Fidelity" rfl

/-- C7: `small_holdings_snapshot` on any account name with no stored Full
Snapshot returns the empty mapping and never raises. -/
theorem c7_unknown_account_empty (u : UserState) (name : String)
    (h : assocLookup u.holdings name = none) :
    small_holdings_snapshot u name = .ok (.obj []) := by
  unfold small_holdings_snapshot
  rw [h]

/-- C7 witness at the concrete state `u0` and the never-registered name
`"Ghost"`. -/
theorem c7_witness : small_holdings_snapshot u0 "Ghost" = .ok (.obj []) :=
  c7_unknown_account_empty u0 "Ghost" rfl

/-- Case characterization of `pull_account_holdings`: it either fails
leaving the state untouched, or succeeds having stored the snapshot the
adapter produced. -/
theorem pull_account_holdings_cases (now : String) (resp : Except PyErr JSON)
    (u : UserState) (name : String) :
    pull_account_holdings now resp u name = (u, false) ∨
    ∃ body snapshot, resp = .ok body ∧
      create_holdings_snapshot now body = .ok snapshot ∧
      pull_account_holdings now resp u name
        = ({ u with holdings := dictInsert u.holdings name snapshot }, true) := by
  unfold pull_account_holdings
  cases assocLookup u.brokerage_accounts name with
  | none => left; rfl
  | some v =>
    cases resp with
    | error e => left; rfl
    | ok body =>
      cases hc : create_holdings_snapshot now body with
      | error e => left; simp [hc]
      | ok s => right; exact ⟨body, s, rfl, hc, by simp [hc]⟩

/-- C9: `pull_account_holdings` is atomic on failure — whenever it
returns `False`, the user state (both the `holdings` and the
`brokerage_accounts` mappings) is exactly as before the call, so a
snapshot is stored only on a `True` return. -/
theorem c9_pull_atomic_on_failure (now : String) (resp : Except PyErr JSON)
    (u : UserState) (name : String)
    (h : (pull_account_holdings now resp u name).2 = false) :
    (pull_account_holdings now resp u name).1 = u := by
  rcases pull_account_holdings_cases now resp u name with he | ⟨body, snap, _, _, he⟩
  · rw [he]
  · rw [he] at h
    simp at h

/-- C9 witness: a pull for an unregistered account name fails and leaves
the state untouched. -/
theorem c9_witness :
    (pull_account_holdings "t" (.ok (.obj [])) u0 "X").1 = u0 :=
  c9_pull_atomic_on_failure "t" (.ok (.obj [])) u0 "X" rfl

/-- C10: `pull_connected_brokerage_accounts` is not atomic on failure —
on `resp10` (second account lacks `"name"`) it returns `False`, yet the
entry for the first account `"Alpha"` has been stored. -/
theorem c10_register_not_atomic :
    (pull_connected_brokerage_accounts resp10 u0).2 = false ∧
    assocLookup (pull_connected_brokerage_accounts resp10 u0).1.brokerage_accounts
      "Alpha" = some (.str "1") ∧
    assocLookup u0.brokerage_accounts "Alpha" = none :=
  ⟨rfl, rfl, rfl⟩

end PortfolioPro
